import Mathlib

/-!
Verification development for the `@mfdlabs/logging` logger
(`src/src/logger/log_level.ts` and the `Logger` class of
`src/unnamed/part_002`, i.e. `src/logger/index.ts`).

The TypeScript code is shallowly embedded: the mutable `Logger` object
becomes an explicit `LoggerState` record, the process-wide `Logger._loggers`
array becomes a `List LoggerState`, methods become pure functions from state
to state, and throwing methods return `Except JsError _`.  Runtime facts the
code reads from the process (timestamps, uptime, host name, whether a stream
write throws, the frames of a captured stack trace) are collected in a
`RunEnv` record and passed explicitly, which makes every operation a total
computable function.  Sink I/O is modelled at the event level: each operation
additionally returns the list of observable `Event`s it produced (message
dispatches, console writes, file writes).

Modelling notes:
* `src/logger/logger_constants.ts` and `src/logger/log_color.ts` are not
  included under `src/`; the error-message constants and the color escape
  strings are opaque tokens here (the spec treats colors as "an opaque
  enumeration of markup strings").  The name pattern is
  `/^[a-zA-Z0-9_\-]{1,100}$/`, as stated by the spec and by
  `logger.spec.ts`.
* Directory creation (`fs.mkdirSync` inside `_createFileName`) is modelled
  as succeeding; its failure branch is not exercised by any claim.
* `new Error(text).stack` is modelled from the V8 runtime format:
  `"Error: " ++ text` followed by one `"\n" ++ frame` per stack frame.
-/

/-! ## Log levels (`src/src/logger/log_level.ts`) -/

/-- The `LogLevel` string enum: none, error, warning, info, debug, trace. -/
inductive LogLevel where
  | none
  | error
  | warning
  | info
  | debug
  | trace
deriving DecidableEq, Repr, Inhabited

/-- The string value of each enum member. -/
def LogLevel.toStr : LogLevel → String
  | .none => "none"
  | .error => "error"
  | .warning => "warning"
  | .info => "info"
  | .debug => "debug"
  | .trace => "trace"

/-- `Object.values(LogLevel)` — declaration order of the enum members. -/
def LogLevel.values : List LogLevel :=
  [.none, .error, .warning, .info, .debug, .trace]

/-- `Object.values(LogLevel).indexOf(level)`.  String comparison on the enum
values coincides with comparison of the members themselves because `toStr`
is injective, and a validated `_logLevel` is always a member, so the JS
`-1` case cannot occur. -/
def LogLevel.index (l : LogLevel) : Nat := LogLevel.values.indexOf l

/-- `Logger._checkLogLevel` (part_002 lines 474-481): the configured level
admits the candidate iff `indexOf(configured) >= indexOf(candidate)`. -/
def checkLogLevel (configured candidate : LogLevel) : Bool :=
  decide (LogLevel.index candidate ≤ LogLevel.index configured)

/-! ## JS validation errors and dynamic message values -/

/-- The JS error classes thrown by validation code, with their message. -/
inductive JsError where
  | referenceError (msg : String)
  | typeError (msg : String)
  | rangeError (msg : String)
  | syntaxError (msg : String)
deriving DecidableEq, Repr

/-- Opaque message constants from `logger_constants.ts` (file not under
`src/`; the exact texts are irrelevant, distinct tokens suffice). -/
def invalidLogMessage : String := "invalid log message"

def invalidLogMessageType : String := "invalid log message type"

def invalidLoggerName : String := "invalid logger name"

def invalidConstructorNameEmpty : String := "constructor name empty"

def setterValueCannotBeEmpty : String := "setter value cannot be empty"

/-- The duplicate-name message: `Logger with name '<name>' already exists.` -/
def duplicateLoggerName (name : String) : String :=
  "Logger with name already exists: " ++ name

/-- A dynamically-typed JS value as passed for the `message` parameter:
`undefined`, `null`, a string, a zero-argument function together with the
value it returns when invoked, or a value of any other runtime type. -/
inductive JsVal where
  | undef
  | jsNull
  | str (s : String)
  | fn (result : JsVal)
  | other (descr : String)
deriving DecidableEq, Repr

/-- The shared message-validation prelude of the six emit methods
(part_002, e.g. lines 941-946):
`undefined`/`null` throws `ReferenceError`; a function is invoked once; a
non-string result throws `TypeError`; an empty string throws `RangeError`. -/
def validateMessage (message : JsVal) : Except JsError String :=
  match message with
  | .undef => .error (.referenceError invalidLogMessage)
  | .jsNull => .error (.referenceError invalidLogMessage)
  | v =>
    let resolved := match v with
      | .fn r => r
      | w => w
    match resolved with
    | .str s =>
      if s.length = 0 then .error (.rangeError invalidLogMessage) else .ok s
    | _ => .error (.typeError invalidLogMessageType)

/-! ## `util.format` with `%s` placeholders -/

/-- Character-level `util.format`: each `%s` is replaced by the next
argument; leftover `%s` markers stay literal; leftover arguments are
appended, each preceded by a space. -/
def utilFormatChars : List Char → List String → List Char
  | '%' :: 's' :: rest, a :: as => a.toList ++ utilFormatChars rest as
  | c :: rest, as => c :: utilFormatChars rest as
  | [], as => (as.map (fun a => " " ++ a)).foldl (fun acc x => acc ++ x.toList) []

/-- `util.format(fmt, ...args)` restricted to `%s` substitution, which is
the only specifier this code base uses with string arguments. -/
def utilFormat (fmt : String) (args : List String) : String :=
  String.mk (utilFormatChars fmt.toList (args.map id))

/-! ## Stack-trace capture and `Logger._formatStackTrace` -/

/-- Split a character list at every newline; JS `s.split('\n')` (one or more
segments, never empty). -/
def splitLinesAux : List Char → List (List Char)
  | [] => [[]]
  | c :: rest =>
    let ls := splitLinesAux rest
    if c = '\n' then [] :: ls else (c :: ls.headD []) :: ls.tail

/-- JS `lines.join('\n')`. -/
def joinLines : List (List Char) → List Char
  | [] => []
  | [l] => l
  | l :: ls => l ++ '\n' :: joinLines ls

/-- `line.replace(/^Error: /, '')` on one line: drop a leading `"Error: "`
if present. -/
def stripErrorMarker (cs : List Char) : List Char :=
  if "Error: ".toList.isPrefixOf cs then cs.drop 7 else cs

/-- `Logger._formatStackTrace` (part_002 lines 280-286): split the stack on
newlines, strip the leading `Error: ` marker from the first line, rejoin. -/
def formatStackTrace (stackTrace : String) : String :=
  let lines := splitLinesAux stackTrace.toList
  String.mk (joinLines (match lines with
    | [] => []
    | h :: t => stripErrorMarker h :: t))

/-- The frame block of a captured stack: one `"\n" ++ frame` per frame. -/
def framesSuffix : List String → String
  | [] => ""
  | f :: fs => "\n" ++ f ++ framesSuffix fs

/-- Modelled from the spec and the V8 runtime: `new Error(text).stack` is
`"Error: " ++ text` followed by `"\n" ++ frame` for each call-stack frame
(`Error.stackTraceLimit = Infinity` is set at module load, so the frame
list of a real capture is never empty). -/
def errorStack (text : String) (frames : List String) : String :=
  "Error: " ++ text ++ framesSuffix frames

/-! ### Lemmas about splitting and joining -/

theorem splitLinesAux_ne_nil (cs : List Char) : splitLinesAux cs ≠ [] := by
  cases cs with
  | nil => simp [splitLinesAux]
  | cons c rest =>
    simp only [splitLinesAux]
    split <;> simp

theorem joinLines_splitLinesAux (cs : List Char) :
    joinLines (splitLinesAux cs) = cs := by
  induction cs with
  | nil => rfl
  | cons c rest ih =>
    simp only [splitLinesAux]
    rcases h : splitLinesAux rest with _ | ⟨hd, tl⟩
    · exact absurd h (splitLinesAux_ne_nil rest)
    · rw [h] at ih
      by_cases hc : c = '\n'
      · subst hc
        simp only [if_pos rfl, joinLines]
        cases tl <;> simpa [joinLines] using ih
      · simp only [if_neg hc, List.headD, List.tail]
        cases tl with
        | nil => simpa [joinLines] using ih
        | cons x xs => simpa [joinLines] using ih

theorem splitLinesAux_append_no_newline (pre cs : List Char)
    (h : '\n' ∉ pre) :
    splitLinesAux (pre ++ cs) =
      (pre ++ (splitLinesAux cs).headD []) :: (splitLinesAux cs).tail := by
  induction pre with
  | nil =>
    rcases hs : splitLinesAux cs with _ | ⟨hd, tl⟩
    · exact absurd hs (splitLinesAux_ne_nil cs)
    · simp [hs]
  | cons p ps ih =>
    have hp : p ≠ '\n' := by
      intro heq; exact h (by simp [heq])
    have hps : '\n' ∉ ps := fun hm => h (List.mem_cons_of_mem _ hm)
    rw [List.cons_append]
    simp only [splitLinesAux, if_neg hp]
    rw [ih hps]
    simp

theorem stripErrorMarker_prefixed (cs : List Char) :
    stripErrorMarker ("Error: ".toList ++ cs) = cs := by
  have hpre : "Error: ".toList.isPrefixOf ("Error: ".toList ++ cs) := by
    simp [List.isPrefixOf_iff_prefix]
  simp only [stripErrorMarker, if_pos hpre]
  have : ("Error: ".toList).length = 7 := by decide
  rw [← this, List.drop_left]

/-- Stripping the marker after a full capture: for every string `s`,
`formatStackTrace ("Error: " ++ s) = s`. -/
theorem formatStackTrace_errorPrefix (s : String) :
    formatStackTrace ("Error: " ++ s) = s := by
  have htl : ("Error: " ++ s).toList = "Error: ".toList ++ s.toList := by
    simp
  have hnonl : '\n' ∉ "Error: ".toList := by decide
  simp only [formatStackTrace, htl,
    splitLinesAux_append_no_newline _ _ hnonl]
  rcases hs : splitLinesAux s.toList with _ | ⟨hd, tl⟩
  · exact absurd hs (splitLinesAux_ne_nil s.toList)
  · simp only [List.headD, List.tail, stripErrorMarker_prefixed]
    have := joinLines_splitLinesAux s.toList
    rw [hs] at this
    rw [this]
    rfl

/-! ## Log colors

`src/logger/log_color.ts` is not under `src/`.  Modelled from the spec:
color codes are "an opaque enumeration of markup strings"; concrete ANSI
bright-color escapes are used, their exact content is never relied upon. -/

def logColorReset : String := "\x1B[0m"

def logColorBrightBlack : String := "\x1B[90m"

def logColorBrightRed : String := "\x1B[91m"

def logColorBrightYellow : String := "\x1B[93m"

def logColorBrightBlue : String := "\x1B[94m"

def logColorBrightMagenta : String := "\x1B[95m"

def logColorBrightWhite : String := "\x1B[97m"

/-! ## Runtime environment and logger state -/

/-- Runtime facts consumed by the logger: the static host/process strings
captured at module load, the current timestamp/uptime, the base log
directory, and the behavior of the next file-stream write (whether it
throws, and the thrown `Error.message`), plus the frames a stack capture
would produce. -/
structure RunEnv where
  nowIso : String
  uptime : String
  localIp : String
  hostname : String
  processId : String
  architectureFmt : String
  nodeVersion : String
  processVersion : String
  fileSafeNow : String
  pidHexUpper : String
  logFileBaseDirectory : String
  writeThrows : Bool
  writeErrorMessage : String
  stackFrames : List String
deriving Repr

/-- The mutable per-instance fields of the `Logger` class (part_002 lines
184-234).  The open write stream is `some ()` when present; `fileName`,
`fullyQualifiedLogFileName` and the two prefix caches are `none` while
unset, mirroring `undefined`. -/
structure LoggerState where
  name : String
  logLevel : LogLevel
  logToConsole : Bool
  logToFileSystem : Bool
  cutLogPrefix : Bool
  logWithColor : Bool
  lockedFileWriteStream : Option Unit
  fileName : Option String
  fullyQualifiedLogFileName : Option String
  cachedNonColorPrefix : Option String
  cachedColorPrefix : Option String
deriving DecidableEq, Repr

/-! ## Prefix builders (part_002 lines 264-357) -/

/-- `Logger._getColorSection`: `util.format('[%s%s%s]', color, content, Reset)`. -/
def getColorSection (color content : String) : String :=
  "[" ++ color ++ content ++ logColorReset ++ "]"

/-- `Logger._getDefaultColorSection`: a color section in bright black. -/
def getDefaultColorSection (content : String) : String :=
  getColorSection logColorBrightBlack content

/-- `Logger._getConstructedShortNonColorLogPrefix`:
`util.format('[%s][%s][%s]', localIp, hostname, name)`. -/
def shortNonColorLogPrefix (env : RunEnv) (name : String) : String :=
  "[" ++ env.localIp ++ "][" ++ env.hostname ++ "][" ++ name ++ "]"

/-- `Logger._getConstructedLongNonColorLogPrefix`: six bracketed fields
(pid, platform-arch, node version, ip, hostname, name). -/
def longNonColorLogPrefix (env : RunEnv) (name : String) : String :=
  "[" ++ env.processId ++ "][" ++ env.architectureFmt ++ "][" ++
    env.nodeVersion ++ "][" ++ env.localIp ++ "][" ++ env.hostname ++
    "][" ++ name ++ "]"

/-- `Logger._getConstructedShortLogPrefix` (colored). -/
def shortColorLogPrefix (env : RunEnv) (name : String) : String :=
  getDefaultColorSection env.localIp ++ getDefaultColorSection env.hostname ++
    getDefaultColorSection name

/-- `Logger._getConstructedLongColorLogPrefix`. -/
def longColorLogPrefix (env : RunEnv) (name : String) : String :=
  getDefaultColorSection env.processId ++
    getDefaultColorSection env.architectureFmt ++
    getDefaultColorSection env.nodeVersion ++
    getDefaultColorSection env.localIp ++
    getDefaultColorSection env.hostname ++
    getDefaultColorSection name

/-- `Logger._getNonColorLogPrefix` (lines 295-299): return the cached
non-color prefix, computing and caching the short or long form (chosen by
`cutLogPrefix`) on first use; `??=` assigns only when the cache is unset. -/
def getNonColorLogPrefix (env : RunEnv) (s : LoggerState) :
    String × LoggerState :=
  if s.cutLogPrefix then
    match s.cachedNonColorPrefix with
    | some p => (p, s)
    | Option.none =>
      let p := shortNonColorLogPrefix env s.name
      (p, { s with cachedNonColorPrefix := some p })
  else
    match s.cachedNonColorPrefix with
    | some p => (p, s)
    | Option.none =>
      let p := longNonColorLogPrefix env s.name
      (p, { s with cachedNonColorPrefix := some p })

/-- `Logger._getColorPrefix` (lines 326-330): the colored analogue. -/
def getColorPrefix (env : RunEnv) (s : LoggerState) : String × LoggerState :=
  if s.cutLogPrefix then
    match s.cachedColorPrefix with
    | some p => (p, s)
    | Option.none =>
      let p := shortColorLogPrefix env s.name
      (p, { s with cachedColorPrefix := some p })
  else
    match s.cachedColorPrefix with
    | some p => (p, s)
    | Option.none =>
      let p := longColorLogPrefix env s.name
      (p, { s with cachedColorPrefix := some p })

/-! ## Message construction (part_002 lines 362-422) -/

/-- The message-body computation shared by `_constructLoggerMessage` and
`_constructColoredLoggerMessage`: interpolate the arguments only when at
least one is present, then, for Trace, replace the text by the stripped
stack of `new Error(text)` (`util.format('%s', s)` is `s`). -/
def resolvedBody (env : RunEnv) (logLevel : LogLevel) (format : String)
    (args : List String) : String :=
  let formattedMessage := if args.length = 0 then format else utilFormat format args
  if logLevel = .trace then
    formatStackTrace (errorStack formattedMessage env.stackFrames)
  else formattedMessage

/-- `logLevel.toUpperCase()`. -/
def levelTag (logLevel : LogLevel) : String := logLevel.toStr.toUpper

/-- `Logger._constructLoggerMessage`:
`util.format('[%s]%s[%s] %s\n', now, prefix, LEVEL, body)` when cutting,
with an extra bracketed uptime field otherwise.  Returns the line and the
state updated by prefix caching. -/
def constructLoggerMessage (env : RunEnv) (s : LoggerState)
    (logLevel : LogLevel) (format : String) (args : List String) :
    String × LoggerState :=
  let fm := resolvedBody env logLevel format args
  let pr := getNonColorLogPrefix env s
  if s.cutLogPrefix then
    ("[" ++ env.nowIso ++ "]" ++ pr.1 ++ "[" ++ levelTag logLevel ++ "] " ++
      fm ++ "\n", pr.2)
  else
    ("[" ++ env.nowIso ++ "][" ++ env.uptime ++ "]" ++ pr.1 ++ "[" ++
      levelTag logLevel ++ "] " ++ fm ++ "\n", pr.2)

/-- `Logger._constructColoredLoggerMessage`:
`util.format('%s%s%s %s%s%s\n', dateSection, colorPrefix, levelSection,
color, body, Reset)`, with an extra uptime section when not cutting. -/
def constructColoredLoggerMessage (env : RunEnv) (s : LoggerState)
    (logLevel : LogLevel) (color : String) (format : String)
    (args : List String) : String × LoggerState :=
  let fm := resolvedBody env logLevel format args
  let pr := getColorPrefix env s
  if s.cutLogPrefix then
    (getDefaultColorSection env.nowIso ++ pr.1 ++
      getColorSection color (levelTag logLevel) ++ " " ++ color ++ fm ++
      logColorReset ++ "\n", pr.2)
  else
    (getDefaultColorSection env.nowIso ++ getDefaultColorSection env.uptime ++
      pr.1 ++ getColorSection color (levelTag logLevel) ++ " " ++ color ++
      fm ++ logColorReset ++ "\n", pr.2)

/-! ## Sinks (part_002 lines 428-461, 530-589) -/

/-- Observable effects of an emit call: a message dispatched past the level
gate (`_log` invoked), a console write (stderr for Error), a file write. -/
inductive Event where
  | dispatched (level : LogLevel) (format : String) (args : List String)
  | consoleOut (isStderr : Bool) (line : String)
  | fileOut (line : String)
deriving DecidableEq, Repr

/-- `util.format('log_%s_%s_%s_%s.log', name, process.version,
fileSafeTimestamp, hexPid)`. -/
def logFileName (env : RunEnv) (name : String) : String :=
  "log_" ++ name ++ "_" ++ env.processVersion ++ "_" ++ env.fileSafeNow ++
    "_" ++ env.pidHexUpper ++ ".log"

/-- `path.join(base, fileName)`. -/
def pathJoin (a b : String) : String := a ++ "/" ++ b

/-- `Logger._createFileName` (lines 550-559): `??=` the file name and the
fully-qualified path.  Base-directory existence/creation (`existsSync` /
`mkdirSync`) is modelled as succeeding; see the header note. -/
def createFileName (env : RunEnv) (s : LoggerState) : LoggerState :=
  let fn := match s.fileName with
    | some f => f
    | Option.none => logFileName env s.name
  let fqn := match s.fullyQualifiedLogFileName with
    | some f => f
    | Option.none => pathJoin env.logFileBaseDirectory fn
  { s with fileName := some fn, fullyQualifiedLogFileName := some fqn }

/-- `Logger._createFileStream`: opens the append-mode stream. -/
def createFileStream (s : LoggerState) : LoggerState :=
  { s with lockedFileWriteStream := some () }

/-- `Logger._closeFileStream` (lines 538-545): end and destroy the stream
and clear the stream handle and both file-name fields. -/
def closeFileStream (s : LoggerState) : LoggerState :=
  { s with lockedFileWriteStream := Option.none,
           fullyQualifiedLogFileName := Option.none,
           fileName := Option.none }

/-- `Logger._logConsole` (lines 452-461): skip when `logToConsole` is
false; otherwise build the colored or plain line and write it to stderr
for Error, stdout otherwise. -/
def logConsole (env : RunEnv) (s : LoggerState) (logLevel : LogLevel)
    (color : String) (format : String) (args : List String) :
    LoggerState × List Event :=
  if !s.logToConsole then (s, [])
  else
    let pr :=
      if s.logWithColor then
        constructColoredLoggerMessage env s logLevel color format args
      else constructLoggerMessage env s logLevel format args
    (pr.2, [.consoleOut (logLevel == .error) pr.1])

/-- The body of `Logger._logLocally` (lines 428-447) up to and including
the `try` block: skip when `logToFileSystem` is false; lazily create the
file name and stream; build the line and attempt the write.  On a throwing
write the `catch` first sets `logToFileSystem` to false and closes the
stream; the returned flag says whether the handler's warning still runs. -/
def logLocallyCore (env : RunEnv) (s : LoggerState) (logLevel : LogLevel)
    (format : String) (args : List String) :
    LoggerState × List Event × Bool :=
  if !s.logToFileSystem then (s, [], false)
  else
    let s1 := if s.lockedFileWriteStream.isNone then
        createFileStream (createFileName env s)
      else s
    let pr := constructLoggerMessage env s1 logLevel format args
    if env.writeThrows then
      (closeFileStream { pr.2 with logToFileSystem := false }, [], true)
    else
      (pr.2, [.fileOut pr.1], false)

/-- The format string of the `catch` handler's self-report:
`Unable to write to file stream due to "%s". Disabling file stream.` -/
def writeFailureFormat : String :=
  "Unable to write to file stream due to \"%s\". Disabling file stream."

/-- The `this.warning(writeFailureFormat, ex.message)` call of the `catch`
handler, with `Logger.warning`'s body unrolled once: the literal message
passes validation; the level gate applies; then console sink and file sink
(the latter a no-op because `logToFileSystem` was just set false). -/
def warningAfterWriteFailure (env : RunEnv) (s : LoggerState) :
    LoggerState × List Event :=
  if !checkLogLevel s.logLevel .warning then (s, [])
  else
    let pr := logConsole env s .warning logColorBrightYellow
      writeFailureFormat [env.writeErrorMessage]
    let pr2 := logLocallyCore env pr.1 .warning writeFailureFormat
      [env.writeErrorMessage]
    (pr2.1,
      .dispatched .warning writeFailureFormat [env.writeErrorMessage] ::
        (pr.2 ++ pr2.2.1))

/-- `Logger._logLocally` in full: the core write attempt followed, on a
throwing write, by the catch handler's warning. -/
def logLocally (env : RunEnv) (s : LoggerState) (logLevel : LogLevel)
    (format : String) (args : List String) : LoggerState × List Event :=
  let pr := logLocallyCore env s logLevel format args
  if pr.2.2 then
    let wr := warningAfterWriteFailure env pr.1
    (wr.1, pr.2.1 ++ wr.2)
  else (pr.1, pr.2.1)

/-- The shared body of the six leveled emit methods (part_002 lines
941-1042): validate the message, apply `_checkLogLevel`, then `_log` =
console sink followed by file sink.  The `dispatched` event records that
the gate admitted the message. -/
def emitWith (env : RunEnv) (s : LoggerState) (logLevel : LogLevel)
    (color : String) (message : JsVal) (args : List String) :
    Except JsError (LoggerState × List Event) :=
  match validateMessage message with
  | .error e => .error e
  | .ok m =>
    if !checkLogLevel s.logLevel logLevel then .ok (s, [])
    else
      let pr := logConsole env s logLevel color m args
      let pr2 := logLocally env pr.1 logLevel m args
      .ok (pr2.1, .dispatched logLevel m args :: (pr.2 ++ pr2.2))

/-! ## The six leveled emit methods (part_002 lines 941-1042) -/

namespace Logger

/-- `Logger.log`: Info level, bright white. -/
def log (env : RunEnv) (s : LoggerState) (message : JsVal)
    (args : List String) : Except JsError (LoggerState × List Event) :=
  emitWith env s .info logColorBrightWhite message args

/-- `Logger.warning`: Warning level, bright yellow. -/
def warning (env : RunEnv) (s : LoggerState) (message : JsVal)
    (args : List String) : Except JsError (LoggerState × List Event) :=
  emitWith env s .warning logColorBrightYellow message args

/-- `Logger.trace`: Trace level, bright magenta. -/
def trace (env : RunEnv) (s : LoggerState) (message : JsVal)
    (args : List String) : Except JsError (LoggerState × List Event) :=
  emitWith env s .trace logColorBrightMagenta message args

/-- `Logger.debug`: Debug level, bright magenta. -/
def debug (env : RunEnv) (s : LoggerState) (message : JsVal)
    (args : List String) : Except JsError (LoggerState × List Event) :=
  emitWith env s .debug logColorBrightMagenta message args

/-- `Logger.information`: Info level, bright blue. -/
def information (env : RunEnv) (s : LoggerState) (message : JsVal)
    (args : List String) : Except JsError (LoggerState × List Event) :=
  emitWith env s .info logColorBrightBlue message args

/-- `Logger.error`: Error level, bright red. -/
def error (env : RunEnv) (s : LoggerState) (message : JsVal)
    (args : List String) : Except JsError (LoggerState × List Event) :=
  emitWith env s .error logColorBrightRed message args

end Logger

/-! ## Name validation, TTY detection, constructor (part_002 lines 695-746) -/

/-- One character of the name class `[a-zA-Z0-9_-]`. -/
def isNameChar (c : Char) : Bool :=
  c.isLower || c.isUpper || c.isDigit || c == '_' || c == '-'

/-- Modelled from the spec: `logger_constants.ts` (which holds `nameRegex`)
is not under `src/`; the pattern `/^[a-zA-Z0-9_\-]{1,100}$/` is the one the
spec states and `logger.spec.ts` exercises.  `nameRegex.test(name)`. -/
def nameTest (s : String) : Bool :=
  decide (1 ≤ s.length) && decide (s.length ≤ 100) && s.toList.all isNameChar

/-- `process.stdout.isTTY` / `process.stderr.isTTY` as the runtime sees
them: a boolean, or `undefined` (`none`) when the stream is not a TTY. -/
structure TtyState where
  stdoutIsTTY : Option Bool
  stderrIsTTY : Option Bool
deriving DecidableEq, Repr

/-- JS `&&` on this value domain: return the left operand unless it is
truthy (`true`), in which case return the right operand. -/
def jsAnd (a b : Option Bool) : Option Bool :=
  if a = some true then b else a

/-- Lines 741-745 of the constructor:
`this._logToConsole = this._logToConsole && process.stdout.isTTY &&
process.stderr.isTTY;` followed by
`if (this._logToConsole === undefined) this._logToConsole = true;`. -/
def ttyAdjustedLogToConsole (tty : TtyState) (logToConsole : Bool) : Bool :=
  match jsAnd (jsAnd (some logToConsole) tty.stdoutIsTTY)
      tty.stderrIsTTY with
  | Option.none => true
  | some b => b

/-- The fields of a freshly constructed `Logger` instance. -/
def constructedLogger (tty : TtyState) (name : String) (logLevel : LogLevel)
    (logToFileSystem logToConsole cutLogPrefix logWithColor : Bool) :
    LoggerState :=
  { name := name
    logLevel := logLevel
    logToConsole := ttyAdjustedLogToConsole tty logToConsole
    logToFileSystem := logToFileSystem
    cutLogPrefix := cutLogPrefix
    logWithColor := logWithColor
    lockedFileWriteStream := Option.none
    fileName := Option.none
    fullyQualifiedLogFileName := Option.none
    cachedNonColorPrefix := Option.none
    cachedColorPrefix := Option.none }

/-- The `Logger` constructor over well-typed arguments.  The
`undefined`/`null` and `typeof` validation branches are unreachable for
typed inputs and the level is already normalized, so the remaining checks
are: name non-empty, name pattern, name uniqueness against `_loggers`.
On success the instance is pushed and its fields assigned, with
`logToConsole` adjusted by the TTY check. -/
def Logger.construct (tty : TtyState) (reg : List LoggerState)
    (name : String) (logLevel : LogLevel)
    (logToFileSystem logToConsole cutLogPrefix logWithColor : Bool) :
    Except JsError (List LoggerState × LoggerState) :=
  if name.length = 0 then .error (.rangeError invalidConstructorNameEmpty)
  else if !nameTest name then .error (.syntaxError invalidLoggerName)
  else if (reg.findIdx? (fun l => l.name == name)).isSome then
    .error (.referenceError (duplicateLoggerName name))
  else
    let l := constructedLogger tty name logLevel logToFileSystem
      logToConsole cutLogPrefix logWithColor
    .ok (reg ++ [l], l)

/-! ## Setters (part_002 lines 863-929) -/

/-- Replace the element at an index, leaving the list unchanged when the
index is out of range (the registry cell the mutated object lives in). -/
def updAt {α : Type} : List α → Nat → (α → α) → List α
  | [], _, _ => []
  | x :: xs, 0, f => f x :: xs
  | x :: xs, Nat.succ n, f => x :: updAt xs n f

/-- `set name` (lines 863-872) on the registry member at index `i`: after
the emptiness and pattern checks, the uniqueness search runs over the whole
registry — it does not exclude the instance being renamed. -/
def Logger.setName (reg : List LoggerState) (i : Nat) (value : String) :
    Except JsError (List LoggerState) :=
  if value.length = 0 then .error (.rangeError setterValueCannotBeEmpty)
  else if !nameTest value then .error (.syntaxError invalidLoggerName)
  else if (reg.findIdx? (fun l => l.name == value)).isSome then
    .error (.referenceError (duplicateLoggerName value))
  else .ok (updAt reg i (fun l => { l with name := value }))

/-- `set logLevel` (lines 879-887) over a well-typed, already-normalized
value: storage only. -/
def Logger.setLogLevel (s : LoggerState) (value : LogLevel) : LoggerState :=
  { s with logLevel := value }

/-- `set logToConsole` (lines 913-918) over a well-typed value. -/
def Logger.setLogToConsole (s : LoggerState) (value : Bool) : LoggerState :=
  { s with logToConsole := value }

/-- `set logWithColor` (lines 924-929) over a well-typed value. -/
def Logger.setLogWithColor (s : LoggerState) (value : Bool) : LoggerState :=
  { s with logWithColor := value }

/-- `set logToFileSystem` (lines 893-907) over a well-typed value: no-op
when unchanged; on `true` create the file name and stream; on `false`
close the stream. -/
def Logger.setLogToFileSystem (env : RunEnv) (s : LoggerState)
    (value : Bool) : LoggerState :=
  if s.logToFileSystem == value then s
  else
    let s1 := { s with logToFileSystem := value }
    if value then createFileStream (createFileName env s1)
    else closeFileStream s1

/-! ## Registry bulk operation (part_002 lines 663-679) -/

/-- Run an emit and keep the resulting state, or the original state when
validation rejects the call (used to model an internal emit whose events
are not under scrutiny). -/
def applyEmitOk (env : RunEnv) (s : LoggerState) (logLevel : LogLevel)
    (color : String) (message : JsVal) (args : List String) : LoggerState :=
  match emitWith env s logLevel color message args with
  | .ok pr => pr.1
  | .error _ => s

/-- Apply `f` to the first registry entry carrying the given name (the JS
object reference, located by its unique name). -/
def updateFirstNamed : List LoggerState → String →
    (LoggerState → LoggerState) → List LoggerState
  | [], _, _ => []
  | l :: ls, nm, f =>
    if l.name == nm then f l :: ls else l :: updateFirstNamed ls nm f

/-- `Logger.tryClearAllLoggers` with both singletons already created and
registered under `singletonName` and `noopName`:
`Logger.singleton.log('Try clear all loggers...')`, then iterate a filtered
snapshot of `_loggers` excluding the two singleton names, splice every
entry sharing each snapshot member's name out of the registry, and close
the removed member's stream.  Returns the new registry and the removed,
closed instances.  Every step is total, so the surrounding `catch` (which
would report a warning through the default singleton) is unreachable. -/
def Logger.tryClearAllLoggers (env : RunEnv) (reg : List LoggerState)
    (singletonName noopName : String) :
    List LoggerState × List LoggerState :=
  let reg1 := updateFirstNamed reg singletonName
    (fun st => applyEmitOk env st .info logColorBrightWhite
      (.str "Try clear all loggers...") [])
  let snapshot := reg1.filter
    (fun l => l.name != singletonName && l.name != noopName)
  let newReg := snapshot.foldl
    (fun acc l => acc.filter (fun o => o.name != l.name)) reg1
  let removed := snapshot.map closeFileStream
  (newReg, removed)

/-! ## Helper predicates and structural lemmas -/

/-- Whether an event is a `dispatched` record (the level gate admitted a
message). -/
def Event.isDispatch : Event → Bool
  | .dispatched _ _ _ => true
  | _ => false

/-- Whether an event is a file write. -/
def Event.isFile : Event → Bool
  | .fileOut _ => true
  | _ => false

/-- Whether an event is the dispatch of the file-sink failure self-report. -/
def Event.isWriteFailureWarning : Event → Bool
  | .dispatched lv f _ => lv == .warning && f == writeFailureFormat
  | _ => false

/-- Whether an emit call emitted its message: it returned normally and a
`dispatched` event was produced. -/
def emitsDispatch (r : Except JsError (LoggerState × List Event)) : Bool :=
  match r with
  | .ok pr => pr.2.any Event.isDispatch
  | .error _ => false

/-- Count of file-sink failure self-reports among the events. -/
def countWriteFailureWarnings (evs : List Event) : Nat :=
  (evs.filter Event.isWriteFailureWarning).length

/-- The six emit methods paired with the level each one checks and logs at. -/
def emitOpsWithLevel :
    List ((RunEnv → LoggerState → JsVal → List String →
      Except JsError (LoggerState × List Event)) × LogLevel) :=
  [(Logger.log, .info), (Logger.warning, .warning), (Logger.trace, .trace),
   (Logger.debug, .debug), (Logger.information, .info),
   (Logger.error, .error)]

/-- Agreement of all state fields other than the two prefix caches. -/
def eqExceptCaches (a b : LoggerState) : Prop :=
  a.name = b.name ∧ a.logLevel = b.logLevel ∧
  a.logToConsole = b.logToConsole ∧ a.logToFileSystem = b.logToFileSystem ∧
  a.cutLogPrefix = b.cutLogPrefix ∧ a.logWithColor = b.logWithColor ∧
  a.lockedFileWriteStream = b.lockedFileWriteStream ∧
  a.fileName = b.fileName ∧
  a.fullyQualifiedLogFileName = b.fullyQualifiedLogFileName

theorem eqExceptCaches_refl (a : LoggerState) : eqExceptCaches a a := by
  simp [eqExceptCaches]

theorem eqExceptCaches_trans {a b c : LoggerState}
    (h1 : eqExceptCaches a b) (h2 : eqExceptCaches b c) :
    eqExceptCaches a c := by
  obtain ⟨_, _, _, _, _, _, _, _, _⟩ := h1
  obtain ⟨_, _, _, _, _, _, _, _, _⟩ := h2
  refine ⟨?_, ?_, ?_, ?_, ?_, ?_, ?_, ?_, ?_⟩ <;> simp_all

theorem getNonColorLogPrefix_snd (env : RunEnv) (s : LoggerState) :
    eqExceptCaches (getNonColorLogPrefix env s).2 s := by
  unfold getNonColorLogPrefix
  split <;> (rcases s.cachedNonColorPrefix with _ | p <;> simp [eqExceptCaches])

theorem getColorPrefix_snd (env : RunEnv) (s : LoggerState) :
    eqExceptCaches (getColorPrefix env s).2 s := by
  unfold getColorPrefix
  split <;> (rcases s.cachedColorPrefix with _ | p <;> simp [eqExceptCaches])

theorem constructLoggerMessage_snd (env : RunEnv) (s : LoggerState)
    (logLevel : LogLevel) (format : String) (args : List String) :
    (constructLoggerMessage env s logLevel format args).2
      = (getNonColorLogPrefix env s).2 := by
  unfold constructLoggerMessage
  split <;> rfl

theorem constructColoredLoggerMessage_snd (env : RunEnv) (s : LoggerState)
    (logLevel : LogLevel) (color : String) (format : String)
    (args : List String) :
    (constructColoredLoggerMessage env s logLevel color format args).2
      = (getColorPrefix env s).2 := by
  unfold constructColoredLoggerMessage
  split <;> rfl

theorem logConsole_state (env : RunEnv) (s : LoggerState)
    (logLevel : LogLevel) (color : String) (format : String)
    (args : List String) :
    eqExceptCaches (logConsole env s logLevel color format args).1 s := by
  unfold logConsole
  split
  · exact eqExceptCaches_refl s
  · split
    · show eqExceptCaches
        (constructColoredLoggerMessage env s logLevel color format args).2 s
      rw [constructColoredLoggerMessage_snd]
      exact getColorPrefix_snd env s
    · show eqExceptCaches
        (constructLoggerMessage env s logLevel format args).2 s
      rw [constructLoggerMessage_snd]
      exact getNonColorLogPrefix_snd env s

theorem logConsole_events (env : RunEnv) (s : LoggerState)
    (logLevel : LogLevel) (color : String) (format : String)
    (args : List String) :
    ∀ e ∈ (logConsole env s logLevel color format args).2,
      e.isDispatch = false ∧ e.isFile = false := by
  unfold logConsole
  split
  · simp
  · split <;> (intro e he; simp at he; simp [he, Event.isDispatch, Event.isFile])

/-- Agreement of the five fields no sink operation ever touches. -/
def eqCore (a b : LoggerState) : Prop :=
  a.name = b.name ∧ a.logLevel = b.logLevel ∧
  a.logToConsole = b.logToConsole ∧ a.cutLogPrefix = b.cutLogPrefix ∧
  a.logWithColor = b.logWithColor

theorem eqCore_refl (a : LoggerState) : eqCore a a := by simp [eqCore]

theorem eqCore_trans {a b c : LoggerState} (h1 : eqCore a b)
    (h2 : eqCore b c) : eqCore a c := by
  obtain ⟨_, _, _, _, _⟩ := h1
  obtain ⟨_, _, _, _, _⟩ := h2
  refine ⟨?_, ?_, ?_, ?_, ?_⟩ <;> simp_all

theorem eqExceptCaches_core {a b : LoggerState} (h : eqExceptCaches a b) :
    eqCore a b := by
  obtain ⟨h1, h2, h3, _, h5, h6, _, _, _⟩ := h
  exact ⟨h1, h2, h3, h5, h6⟩

theorem createFileName_core (env : RunEnv) (s : LoggerState) :
    eqCore (createFileName env s) s ∧
    (createFileName env s).logToFileSystem = s.logToFileSystem ∧
    (createFileName env s).lockedFileWriteStream = s.lockedFileWriteStream ∧
    (createFileName env s).fileName.isSome = true ∧
    (createFileName env s).fullyQualifiedLogFileName.isSome = true := by
  simp [createFileName, eqCore]

theorem createFileStream_core (s : LoggerState) :
    eqCore (createFileStream s) s ∧
    (createFileStream s).logToFileSystem = s.logToFileSystem ∧
    (createFileStream s).lockedFileWriteStream = some () ∧
    (createFileStream s).fileName = s.fileName ∧
    (createFileStream s).fullyQualifiedLogFileName
      = s.fullyQualifiedLogFileName := by
  simp [createFileStream, eqCore]

theorem closeFileStream_core (s : LoggerState) :
    eqCore (closeFileStream s) s ∧
    (closeFileStream s).logToFileSystem = s.logToFileSystem ∧
    (closeFileStream s).lockedFileWriteStream = Option.none ∧
    (closeFileStream s).fileName = Option.none ∧
    (closeFileStream s).fullyQualifiedLogFileName = Option.none := by
  simp [closeFileStream, eqCore]

theorem validateMessage_undef :
    validateMessage .undef = .error (.referenceError invalidLogMessage) := rfl

theorem validateMessage_null :
    validateMessage .jsNull
      = .error (.referenceError invalidLogMessage) := rfl

theorem validateMessage_other (d : String) :
    validateMessage (.other d)
      = .error (.typeError invalidLogMessageType) := rfl

theorem validateMessage_fn_other (d : String) :
    validateMessage (.fn (.other d))
      = .error (.typeError invalidLogMessageType) := rfl

theorem validateMessage_fn_undef :
    validateMessage (.fn .undef)
      = .error (.typeError invalidLogMessageType) := rfl

theorem validateMessage_empty :
    validateMessage (.str "") = .error (.rangeError invalidLogMessage) := rfl

theorem validateMessage_fn_empty :
    validateMessage (.fn (.str ""))
      = .error (.rangeError invalidLogMessage) := rfl

theorem validateMessage_str (m : String) (hm : m.length ≠ 0) :
    validateMessage (.str m) = .ok m := by
  simp [validateMessage, hm]

theorem validateMessage_fn_str (m : String) (hm : m.length ≠ 0) :
    validateMessage (.fn (.str m)) = .ok m := by
  simp [validateMessage, hm]

theorem logLocallyCore_skip (env : RunEnv) (s : LoggerState)
    (logLevel : LogLevel) (format : String) (args : List String)
    (h : s.logToFileSystem = false) :
    logLocallyCore env s logLevel format args = (s, [], false) := by
  simp [logLocallyCore, h]

theorem logLocallyCore_throw_eq (env : RunEnv) (s : LoggerState)
    (logLevel : LogLevel) (format : String) (args : List String)
    (hl : s.logToFileSystem = true) (hw : env.writeThrows = true) :
    logLocallyCore env s logLevel format args =
      (closeFileStream { (constructLoggerMessage env
          (if s.lockedFileWriteStream.isNone then
            createFileStream (createFileName env s) else s)
          logLevel format args).2 with logToFileSystem := false },
        [], true) := by
  unfold logLocallyCore
  rw [hl, hw]
  rfl

theorem logLocallyCore_throw (env : RunEnv) (s : LoggerState)
    (logLevel : LogLevel) (format : String) (args : List String)
    (hl : s.logToFileSystem = true) (hw : env.writeThrows = true) :
    (logLocallyCore env s logLevel format args).2 = ([], true) ∧
    (logLocallyCore env s logLevel format args).1.logToFileSystem = false ∧
    (logLocallyCore env s logLevel format args).1.lockedFileWriteStream
      = Option.none ∧
    (logLocallyCore env s logLevel format args).1.fileName = Option.none ∧
    (logLocallyCore env s logLevel format args).1.fullyQualifiedLogFileName
      = Option.none ∧
    eqCore (logLocallyCore env s logLevel format args).1 s := by
  have hcore : ∀ t : LoggerState,
      eqCore (constructLoggerMessage env t logLevel format args).2 t := by
    intro t
    rw [constructLoggerMessage_snd]
    exact eqExceptCaches_core (getNonColorLogPrefix_snd env t)
  rw [logLocallyCore_throw_eq env s logLevel format args hl hw]
  refine ⟨rfl, ?_, ?_, ?_, ?_, ?_⟩
  · simp [closeFileStream]
  · simp [closeFileStream]
  · simp [closeFileStream]
  · simp [closeFileStream]
  · refine eqCore_trans (closeFileStream_core _).1 ?_
    refine eqCore_trans (b := (constructLoggerMessage env
        (if s.lockedFileWriteStream.isNone then
          createFileStream (createFileName env s) else s)
        logLevel format args).2) ?_ ?_
    · simp [eqCore]
    · refine eqCore_trans (hcore _) ?_
      by_cases hstream : s.lockedFileWriteStream.isNone
      · rw [if_pos hstream]
        exact eqCore_trans (createFileStream_core _).1 (createFileName_core env s).1
      · rw [if_neg hstream]
        exact eqCore_refl s

theorem Event.not_dispatch_not_failure {e : Event}
    (h : e.isDispatch = false) : e.isWriteFailureWarning = false := by
  cases e <;> simp_all [Event.isDispatch, Event.isWriteFailureWarning]

theorem warningAfterWriteFailure_gateOff (env : RunEnv) (s : LoggerState)
    (hgate : checkLogLevel s.logLevel .warning = false) :
    warningAfterWriteFailure env s = (s, []) := by
  unfold warningAfterWriteFailure
  rw [hgate]
  rfl

theorem warningAfterWriteFailure_spec (env : RunEnv) (s : LoggerState)
    (hgate : checkLogLevel s.logLevel .warning = true)
    (hl : s.logToFileSystem = false) :
    warningAfterWriteFailure env s =
      ((logConsole env s .warning logColorBrightYellow writeFailureFormat
          [env.writeErrorMessage]).1,
        .dispatched .warning writeFailureFormat [env.writeErrorMessage] ::
          (logConsole env s .warning logColorBrightYellow writeFailureFormat
            [env.writeErrorMessage]).2) := by
  have hpres := logConsole_state env s .warning logColorBrightYellow
    writeFailureFormat [env.writeErrorMessage]
  have hltfs : (logConsole env s .warning logColorBrightYellow
      writeFailureFormat [env.writeErrorMessage]).1.logToFileSystem
      = false := by
    obtain ⟨_, _, _, h4, _, _, _, _, _⟩ := hpres
    rw [h4, hl]
  have hskip := logLocallyCore_skip env _ .warning writeFailureFormat
    [env.writeErrorMessage] hltfs
  unfold warningAfterWriteFailure
  rw [hgate]
  simp [hskip]

theorem logLocally_skip (env : RunEnv) (s : LoggerState)
    (logLevel : LogLevel) (format : String) (args : List String)
    (h : s.logToFileSystem = false) :
    logLocally env s logLevel format args = (s, []) := by
  unfold logLocally
  rw [logLocallyCore_skip env s logLevel format args h]
  rfl

theorem logLocally_of_not_failed (env : RunEnv) (s : LoggerState)
    (logLevel : LogLevel) (format : String) (args : List String)
    (h : (logLocallyCore env s logLevel format args).2.2 = false) :
    logLocally env s logLevel format args
      = ((logLocallyCore env s logLevel format args).1,
         (logLocallyCore env s logLevel format args).2.1) := by
  simp [logLocally, h]

theorem logLocally_of_failed (env : RunEnv) (s : LoggerState)
    (logLevel : LogLevel) (format : String) (args : List String)
    (h : (logLocallyCore env s logLevel format args).2.2 = true) :
    logLocally env s logLevel format args
      = ((warningAfterWriteFailure env
            (logLocallyCore env s logLevel format args).1).1,
         (logLocallyCore env s logLevel format args).2.1 ++
           (warningAfterWriteFailure env
             (logLocallyCore env s logLevel format args).1).2) := by
  simp [logLocally, h]

theorem emitWith_gateOff (env : RunEnv) (s : LoggerState)
    (logLevel : LogLevel) (color : String) (message : JsVal)
    (args : List String) (m : String)
    (hok : validateMessage message = .ok m)
    (hgate : checkLogLevel s.logLevel logLevel = false) :
    emitWith env s logLevel color message args = .ok (s, []) := by
  simp [emitWith, hok, hgate]

theorem emitWith_gateOn (env : RunEnv) (s : LoggerState)
    (logLevel : LogLevel) (color : String) (message : JsVal)
    (args : List String) (m : String)
    (hok : validateMessage message = .ok m)
    (hgate : checkLogLevel s.logLevel logLevel = true) :
    emitWith env s logLevel color message args
      = .ok ((logLocally env (logConsole env s logLevel color m args).1
               logLevel m args).1,
          .dispatched logLevel m args ::
            ((logConsole env s logLevel color m args).2 ++
             (logLocally env (logConsole env s logLevel color m args).1
               logLevel m args).2)) := by
  simp [emitWith, hok, hgate]

theorem emitWith_dispatch (env : RunEnv) (s : LoggerState)
    (logLevel : LogLevel) (color : String) (m : String) (args : List String)
    (hm : m.length ≠ 0) :
    emitsDispatch (emitWith env s logLevel color (.str m) args)
      = checkLogLevel s.logLevel logLevel := by
  by_cases hgate : checkLogLevel s.logLevel logLevel = true
  · rw [emitWith_gateOn env s logLevel color (.str m) args m
      (validateMessage_str m hm) hgate, hgate]
    simp [emitsDispatch, Event.isDispatch]
  · have hgate2 : checkLogLevel s.logLevel logLevel = false := by
      simpa using hgate
    rw [emitWith_gateOff env s logLevel color (.str m) args m
      (validateMessage_str m hm) hgate2, hgate2]
    simp [emitsDispatch]

/-! ## Sample fixtures used by the witness theorems -/

/-- A concrete runtime environment (writes succeed). -/
def sampleEnv : RunEnv :=
  { nowIso := "2024-01-01T00:00:00.000Z"
    uptime := "1.0000000"
    localIp := "127.0.0.1"
    hostname := "host"
    processId := "abc"
    architectureFmt := "linux-x64"
    nodeVersion := "18.0.0"
    processVersion := "v18.0.0"
    fileSafeNow := "20240101T000000000Z"
    pidHexUpper := "ABC"
    logFileBaseDirectory := "logs"
    writeThrows := false
    writeErrorMessage := "disk full"
    stackFrames := ["    at trace fn"] }

/-- The same environment with a stream whose write throws. -/
def sampleEnvThrow : RunEnv := { sampleEnv with writeThrows := true }

/-- A concrete logger at level Info with both sinks enabled. -/
def sampleLogger : LoggerState :=
  { name := "logger"
    logLevel := .info
    logToConsole := true
    logToFileSystem := true
    cutLogPrefix := true
    logWithColor := false
    lockedFileWriteStream := Option.none
    fileName := Option.none
    fullyQualifiedLogFileName := Option.none
    cachedNonColorPrefix := Option.none
    cachedColorPrefix := Option.none }

/-! ## Claim C1 -/

/-- C1: for every configured level and every leveled emit operation (log,
warning, trace, debug, information, error) on a valid message, the message
is emitted (a dispatch event is produced) iff the rank of the operation's
level in the fixed sequence `[None, Error, Warning, Info, Debug, Trace]` is
at most the rank of the configured level; a configured level of None
suppresses every emission and Trace admits every emission. -/
theorem claim1_level_gate_ranks (env : RunEnv) (s : LoggerState)
    (m : String) (args : List String) (hm : m.length ≠ 0) :
    ∀ p ∈ emitOpsWithLevel,
      (emitsDispatch (p.1 env s (.str m) args)
        = decide (LogLevel.index p.2 ≤ LogLevel.index s.logLevel)) ∧
      (s.logLevel = .none → emitsDispatch (p.1 env s (.str m) args) = false) ∧
      (s.logLevel = .trace → emitsDispatch (p.1 env s (.str m) args) = true) := by
  intro p hp
  have key : ∀ lvl color,
      emitsDispatch (emitWith env s lvl color (.str m) args)
        = checkLogLevel s.logLevel lvl :=
    fun lvl color => emitWith_dispatch env s lvl color m args hm
  simp only [emitOpsWithLevel, List.mem_cons, List.not_mem_nil,
    or_false] at hp
  rcases hp with rfl | rfl | rfl | rfl | rfl | rfl <;>
    exact ⟨key _ _, fun hn => (key _ _).trans (by rw [hn]; decide),
           fun ht => (key _ _).trans (by rw [ht]; decide)⟩

/-- Witness for C1 at a concrete logger and message. -/
theorem claim1_level_gate_ranks_witness :
    ("hello".length ≠ 0) ∧
    emitsDispatch (Logger.log sampleEnv sampleLogger (.str "hello") [])
      = decide (LogLevel.index .info ≤ LogLevel.index sampleLogger.logLevel) :=
  ⟨by decide,
    (claim1_level_gate_ranks sampleEnv sampleLogger "hello" [] (by decide)
      (Logger.log, LogLevel.info) (by simp [emitOpsWithLevel])).1⟩

/-! ## Claim C3 -/

/-- C3: every leveled emit operation rejects, with a validation error raised
to the caller, a message that is missing (undefined/null), is neither a
string nor a function, is a function whose result is not a string, or
resolves to the empty string; a function message returning a valid non-empty
string makes the call succeed, behave exactly like the literal string, and
that string is the dispatched format text. -/
theorem claim3_message_validation (env : RunEnv) (s : LoggerState)
    (args : List String) (d m : String) (hm : m.length ≠ 0) :
    ∀ p ∈ emitOpsWithLevel,
      p.1 env s .undef args = .error (.referenceError invalidLogMessage) ∧
      p.1 env s .jsNull args = .error (.referenceError invalidLogMessage) ∧
      p.1 env s (.other d) args
        = .error (.typeError invalidLogMessageType) ∧
      p.1 env s (.fn (.other d)) args
        = .error (.typeError invalidLogMessageType) ∧
      p.1 env s (.fn .undef) args
        = .error (.typeError invalidLogMessageType) ∧
      p.1 env s (.str "") args = .error (.rangeError invalidLogMessage) ∧
      p.1 env s (.fn (.str "")) args
        = .error (.rangeError invalidLogMessage) ∧
      p.1 env s (.fn (.str m)) args = p.1 env s (.str m) args ∧
      (∃ pr, p.1 env s (.fn (.str m)) args = .ok pr ∧
        (checkLogLevel s.logLevel p.2 = true →
          pr.2.head? = some (.dispatched p.2 m args))) := by
  intro p hp
  have errs : ∀ (lvl : LogLevel) (color : String) (msg : JsVal)
      (e : JsError), validateMessage msg = .error e →
      emitWith env s lvl color msg args = .error e := by
    intro lvl color msg e h
    simp [emitWith, h]
  have eqv : ∀ (lvl : LogLevel) (color : String),
      emitWith env s lvl color (.fn (.str m)) args
        = emitWith env s lvl color (.str m) args := by
    intro lvl color
    unfold emitWith
    rw [validateMessage_fn_str m hm, validateMessage_str m hm]
  have okk : ∀ (lvl : LogLevel) (color : String),
      ∃ pr, emitWith env s lvl color (.fn (.str m)) args = .ok pr ∧
        (checkLogLevel s.logLevel lvl = true →
          pr.2.head? = some (.dispatched lvl m args)) := by
    intro lvl color
    by_cases hg : checkLogLevel s.logLevel lvl = true
    · exact ⟨_, emitWith_gateOn env s lvl color (.fn (.str m)) args m
        (validateMessage_fn_str m hm) hg, fun _ => rfl⟩
    · have hg2 : checkLogLevel s.logLevel lvl = false := by simpa using hg
      exact ⟨(s, []), emitWith_gateOff env s lvl color (.fn (.str m)) args m
        (validateMessage_fn_str m hm) hg2, fun hc => absurd hc hg⟩
  simp only [emitOpsWithLevel, List.mem_cons, List.not_mem_nil,
    or_false] at hp
  rcases hp with rfl | rfl | rfl | rfl | rfl | rfl <;>
    (dsimp only
     exact ⟨errs _ _ _ _ validateMessage_undef,
       errs _ _ _ _ validateMessage_null,
       errs _ _ _ _ (validateMessage_other d),
       errs _ _ _ _ (validateMessage_fn_other d),
       errs _ _ _ _ validateMessage_fn_undef,
       errs _ _ _ _ validateMessage_empty,
       errs _ _ _ _ validateMessage_fn_empty, eqv _ _, okk _ _⟩)

/-- Witness for C3 at a concrete logger: an undefined message is rejected. -/
theorem claim3_message_validation_witness :
    ("hi".length ≠ 0) ∧
    Logger.log sampleEnv sampleLogger .undef []
      = .error (.referenceError invalidLogMessage) :=
  ⟨by decide,
    (claim3_message_validation sampleEnv sampleLogger [] "fortytwo" "hi"
      (by decide) (Logger.log, LogLevel.info)
      (by simp [emitOpsWithLevel])).1⟩

/-! ## Claim C4 -/

theorem formatStackTrace_errorStack (text : String) (frames : List String) :
    formatStackTrace (errorStack text frames)
      = text ++ framesSuffix frames := by
  unfold errorStack
  rw [String.append_assoc]
  exact formatStackTrace_errorPrefix (text ++ framesSuffix frames)

theorem framesSuffix_length_ne_zero {frames : List String}
    (hfr : frames ≠ []) : (framesSuffix frames).length ≠ 0 := by
  cases frames with
  | nil => exact absurd rfl hfr
  | cons f fs =>
    simp only [framesSuffix, String.length_append]
    have h1 : ("\n" : String).length = 1 := rfl
    omega

theorem append_ne_self_of_length_ne_zero (a b : String)
    (hb : b.length ≠ 0) : a ++ b ≠ a := by
  intro h
  have hlen := congrArg String.length h
  rw [String.length_append] at hlen
  omega

theorem logLocallyCore_write_eq (env : RunEnv) (s : LoggerState)
    (logLevel : LogLevel) (format : String) (args : List String)
    (hl : s.logToFileSystem = true) (hw : env.writeThrows = false) :
    logLocallyCore env s logLevel format args =
      ((constructLoggerMessage env
          (if s.lockedFileWriteStream.isNone then
            createFileStream (createFileName env s) else s)
          logLevel format args).2,
       [.fileOut (constructLoggerMessage env
          (if s.lockedFileWriteStream.isNone then
            createFileStream (createFileName env s) else s)
          logLevel format args).1], false) := by
  unfold logLocallyCore
  rw [hl, hw]
  rfl

theorem constructLoggerMessage_shape (env : RunEnv) (s : LoggerState)
    (logLevel : LogLevel) (format : String) (args : List String) :
    ∃ hdr, (constructLoggerMessage env s logLevel format args).1
      = hdr ++ " " ++ resolvedBody env logLevel format args ++ "\n" := by
  have hsplit : ("] " : String) = "]" ++ " " := rfl
  unfold constructLoggerMessage
  split
  · refine ⟨"[" ++ env.nowIso ++ "]" ++ (getNonColorLogPrefix env s).1 ++
      "[" ++ levelTag logLevel ++ "]", ?_⟩
    rw [hsplit]
    simp [String.append_assoc]
  · refine ⟨"[" ++ env.nowIso ++ "][" ++ env.uptime ++ "]" ++
      (getNonColorLogPrefix env s).1 ++ "[" ++ levelTag logLevel ++ "]", ?_⟩
    rw [hsplit]
    simp [String.append_assoc]

/-- File-sink lines produced by a gated emit all have the standard shape
around the resolved message body. -/
theorem emit_fileOut_shape (env : RunEnv) (s : LoggerState)
    (logLevel : LogLevel) (color : String) (m : String) (args : List String)
    (hm : m.length ≠ 0) (hgate : checkLogLevel s.logLevel logLevel = true) :
    ∀ pr, emitWith env s logLevel color (.str m) args = .ok pr →
      ∀ line, .fileOut line ∈ pr.2 →
        ∃ hdr, line = hdr ++ " " ++
          resolvedBody env logLevel m args ++ "\n" := by
  intro pr hpr line hline
  rw [emitWith_gateOn env s logLevel color (.str m) args m
    (validateMessage_str m hm) hgate] at hpr
  injection hpr with hpr
  subst hpr
  simp only [List.mem_cons] at hline
  rcases hline with hd | hline
  · exact absurd hd (by simp)
  rw [List.mem_append] at hline
  rcases hline with hc | hl
  · have := (logConsole_events env s logLevel color m args _ hc).2
    simp [Event.isFile] at this
  · set s1 := (logConsole env s logLevel color m args).1 with hs1
    cases hfs : s1.logToFileSystem with
    | false =>
      rw [logLocally_skip env s1 logLevel m args hfs] at hl
      simp at hl
    | true =>
      cases hw : env.writeThrows with
      | true =>
        have hthrow := logLocallyCore_throw env s1 logLevel m args hfs hw
        have hfailed : (logLocallyCore env s1 logLevel m args).2.2 = true := by
          rw [hthrow.1]
        rw [logLocally_of_failed env s1 logLevel m args hfailed] at hl
        rw [List.mem_append] at hl
        rcases hl with hl | hl
        · rw [hthrow.1] at hl
          simp at hl
        · cases hwg : checkLogLevel
            (logLocallyCore env s1 logLevel m args).1.logLevel .warning with
          | false =>
            rw [warningAfterWriteFailure_gateOff env _ hwg] at hl
            simp at hl
          | true =>
            rw [warningAfterWriteFailure_spec env _ hwg
              hthrow.2.1] at hl
            simp only [List.mem_cons] at hl
            rcases hl with hd | hl
            · exact absurd hd (by simp)
            · have := (logConsole_events env _ .warning
                logColorBrightYellow writeFailureFormat
                [env.writeErrorMessage] _ hl).2
              simp [Event.isFile] at this
      | false =>
        have hwrite := logLocallyCore_write_eq env s1 logLevel m args hfs hw
        have hnf : (logLocallyCore env s1 logLevel m args).2.2 = false := by
          rw [hwrite]
        rw [logLocally_of_not_failed env s1 logLevel m args hnf] at hl
        rw [hwrite] at hl
        simp only [List.mem_singleton] at hl
        have hinj : line = (constructLoggerMessage env
            (if s1.lockedFileWriteStream.isNone then
              createFileStream (createFileName env s1) else s1)
            logLevel m args).1 := by
          cases hl
          rfl
        rw [hinj]
        exact constructLoggerMessage_shape env _ logLevel m args

/-- C4: for every Trace emission passing validation and the level gate, the
message body placed in the formatted line is the stack of a synthetic error
whose message is the formatted input text, with the leading `Error: ` marker
stripped — a multi-line text, never the literal input text alone. -/
theorem claim4_trace_stack (env : RunEnv) (s : LoggerState) (m : String)
    (args : List String) (hm : m.length ≠ 0)
    (hgate : checkLogLevel s.logLevel .trace = true)
    (hfr : env.stackFrames ≠ []) :
    resolvedBody env .trace m args
        = (if args.length = 0 then m else utilFormat m args)
            ++ framesSuffix env.stackFrames ∧
    resolvedBody env .trace m args
        ≠ (if args.length = 0 then m else utilFormat m args) ∧
    '\n' ∈ (resolvedBody env .trace m args).toList ∧
    ∃ pr, Logger.trace env s (.str m) args = .ok pr ∧
      pr.2.head? = some (.dispatched .trace m args) ∧
      ∀ line, .fileOut line ∈ pr.2 →
        ∃ hdr, line = hdr ++ " " ++ resolvedBody env .trace m args ++ "\n" := by
  have hbody : resolvedBody env .trace m args
      = (if args.length = 0 then m else utilFormat m args)
          ++ framesSuffix env.stackFrames := by
    unfold resolvedBody
    rw [if_pos rfl]
    exact formatStackTrace_errorStack _ _
  refine ⟨hbody, ?_, ?_, ?_⟩
  · rw [hbody]
    exact append_ne_self_of_length_ne_zero _ _
      (framesSuffix_length_ne_zero hfr)
  · rw [hbody]
    rcases hfr2 : env.stackFrames with _ | ⟨f, fs⟩
    · exact absurd hfr2 hfr
    · simp [framesSuffix]
  · refine ⟨_, emitWith_gateOn env s .trace logColorBrightMagenta (.str m)
      args m (validateMessage_str m hm) hgate, rfl, ?_⟩
    exact fun line hline => emit_fileOut_shape env s .trace
      logColorBrightMagenta m args hm hgate _
      (emitWith_gateOn env s .trace logColorBrightMagenta (.str m) args m
        (validateMessage_str m hm) hgate) line hline

/-- Witness for C4 at a concrete logger, message and stack. -/
theorem claim4_trace_stack_witness :
    ("hello".length ≠ 0) ∧
    (checkLogLevel ({ sampleLogger with logLevel := .trace } :
      LoggerState).logLevel .trace = true) ∧
    (sampleEnv.stackFrames ≠ []) ∧
    resolvedBody sampleEnv .trace "hello" []
      = (if ([] : List String).length = 0 then "hello"
          else utilFormat "hello" []) ++ framesSuffix sampleEnv.stackFrames :=
  ⟨by decide, by decide, by simp [sampleEnv],
    (claim4_trace_stack sampleEnv { sampleLogger with logLevel := .trace }
      "hello" [] (by decide) (by decide) (by simp [sampleEnv])).1⟩

/-! ## Claim C5 -/

/-- A concrete logger configured at level Error with file logging on. -/
def sampleErrorLogger : LoggerState :=
  { sampleLogger with name := "errlogger", logLevel := .error }

/-- Counterexample to C5 as stated: for a logger configured at level Error,
an `error` emission whose file write throws disables the file sink but emits
zero Warning-level failure reports — the self-report is suppressed by the
level gate, so "exactly one Warning-level message is emitted" fails. -/
theorem claim5_counterexample :
    (Logger.error sampleEnvThrow sampleErrorLogger
        (.str "boom") []).toOption.isSome = true ∧
    ((Logger.error sampleEnvThrow sampleErrorLogger
        (.str "boom") []).toOption.getD
          (sampleErrorLogger, [])).1.logToFileSystem = false ∧
    countWriteFailureWarnings
      ((Logger.error sampleEnvThrow sampleErrorLogger
        (.str "boom") []).toOption.getD (sampleErrorLogger, [])).2 = 0 ∧
    ¬ countWriteFailureWarnings
      ((Logger.error sampleEnvThrow sampleErrorLogger
        (.str "boom") []).toOption.getD (sampleErrorLogger, [])).2 = 1 := by
  refine ⟨?_, ?_, ?_, ?_⟩ <;> decide

theorem emitWith_throw_spec (env : RunEnv) (s : LoggerState)
    (logLevel : LogLevel) (color : String) (m : String) (args : List String)
    (hm : m.length ≠ 0) (hmn : m ≠ writeFailureFormat)
    (hl : s.logToFileSystem = true) (hw : env.writeThrows = true)
    (hgate : checkLogLevel s.logLevel logLevel = true)
    (hwgate : checkLogLevel s.logLevel .warning = true) :
    ∃ pr, emitWith env s logLevel color (.str m) args = .ok pr ∧
      pr.1.logToFileSystem = false ∧
      pr.1.lockedFileWriteStream = Option.none ∧
      pr.1.fileName = Option.none ∧
      pr.1.fullyQualifiedLogFileName = Option.none ∧
      countWriteFailureWarnings pr.2 = 1 := by
  have hs1 := logConsole_state env s logLevel color m args
  obtain ⟨_, hs1ll, _, hs1fs, _, _, _, _, _⟩ := hs1
  have hs1ltfs : (logConsole env s logLevel color m args).1.logToFileSystem
      = true := by rw [hs1fs, hl]
  have hthrow := logLocallyCore_throw env
    (logConsole env s logLevel color m args).1 logLevel m args hs1ltfs hw
  obtain ⟨hth1, hth2, hth3, hth4, hth5, hthcore⟩ := hthrow
  obtain ⟨_, hcll, _, _, _⟩ := hthcore
  have hfailed : (logLocallyCore env
      (logConsole env s logLevel color m args).1 logLevel m args).2.2
      = true := by rw [hth1]
  have hwgate2 : checkLogLevel (logLocallyCore env
      (logConsole env s logLevel color m args).1 logLevel m args).1.logLevel
      .warning = true := by
    rw [hcll, hs1ll, hwgate]
  have hwspec := warningAfterWriteFailure_spec env
    (logLocallyCore env (logConsole env s logLevel color m args).1
      logLevel m args).1 hwgate2 hth2
  have hfinal := logConsole_state env
    (logLocallyCore env (logConsole env s logLevel color m args).1
      logLevel m args).1 .warning logColorBrightYellow writeFailureFormat
    [env.writeErrorMessage]
  obtain ⟨_, _, _, hf4, _, _, hf7, hf8, hf9⟩ := hfinal
  refine ⟨_, emitWith_gateOn env s logLevel color (.str m) args m
    (validateMessage_str m hm) hgate, ?_, ?_, ?_, ?_, ?_⟩
  · rw [logLocally_of_failed env _ logLevel m args hfailed, hwspec]
    rw [hf4, hth2]
  · rw [logLocally_of_failed env _ logLevel m args hfailed, hwspec]
    rw [hf7, hth3]
  · rw [logLocally_of_failed env _ logLevel m args hfailed, hwspec]
    rw [hf8, hth4]
  · rw [logLocally_of_failed env _ logLevel m args hfailed, hwspec]
    rw [hf9, hth5]
  · rw [logLocally_of_failed env _ logLevel m args hfailed, hwspec]
    have hcoreevs : (logLocallyCore env
        (logConsole env s logLevel color m args).1 logLevel m args).2.1
        = [] := by rw [hth1]
    rw [hcoreevs]
    unfold countWriteFailureWarnings
    rw [List.filter_cons, List.filter_append, List.nil_append,
      List.filter_cons]
    have hop : Event.isWriteFailureWarning
        (.dispatched logLevel m args) = false := by
      simp [Event.isWriteFailureWarning, hmn]
    have hfailw : Event.isWriteFailureWarning
        (.dispatched .warning writeFailureFormat [env.writeErrorMessage])
        = true := by
      simp [Event.isWriteFailureWarning]
    have hcons1 : (logConsole env s logLevel color m args).2.filter
        Event.isWriteFailureWarning = [] := by
      refine List.filter_eq_nil_iff.mpr ?_
      intro e he
      have := (logConsole_events env s logLevel color m args e he).1
      simp [Event.not_dispatch_not_failure this]
    have hcons2 : (logConsole env (logLocallyCore env
        (logConsole env s logLevel color m args).1 logLevel m args).1
        .warning logColorBrightYellow writeFailureFormat
        [env.writeErrorMessage]).2.filter Event.isWriteFailureWarning
        = [] := by
      refine List.filter_eq_nil_iff.mpr ?_
      intro e he
      have := (logConsole_events env _ .warning logColorBrightYellow
        writeFailureFormat [env.writeErrorMessage] e he).1
      simp [Event.not_dispatch_not_failure this]
    rw [hop, hcons1, hfailw, hcons2]
    simp

/-- C5 (amended): when a gated emit call's file write throws on a logger
whose configured level also admits Warning, the call returns normally, the
file sink is disabled and closed, and exactly one Warning-level failure
self-report is dispatched through the same logger; the file-sink step of
any logger with file logging disabled is a strict no-op. -/
theorem claim5_sink_failure_selfreport (env : RunEnv) (s : LoggerState)
    (m : String) (args : List String) (hm : m.length ≠ 0)
    (hmn : m ≠ writeFailureFormat) (hl : s.logToFileSystem = true)
    (hw : env.writeThrows = true)
    (hwgate : checkLogLevel s.logLevel .warning = true) :
    ∀ p ∈ emitOpsWithLevel, checkLogLevel s.logLevel p.2 = true →
      ∃ pr, p.1 env s (.str m) args = .ok pr ∧
        pr.1.logToFileSystem = false ∧
        pr.1.lockedFileWriteStream = Option.none ∧
        pr.1.fileName = Option.none ∧
        pr.1.fullyQualifiedLogFileName = Option.none ∧
        countWriteFailureWarnings pr.2 = 1 ∧
        (∀ t : LoggerState, t.logToFileSystem = false →
          logLocally env t p.2 m args = (t, [])) := by
  intro p hp hgate
  have key : ∀ (lvl : LogLevel) (color : String),
      checkLogLevel s.logLevel lvl = true →
      ∃ pr, emitWith env s lvl color (.str m) args = .ok pr ∧
        pr.1.logToFileSystem = false ∧
        pr.1.lockedFileWriteStream = Option.none ∧
        pr.1.fileName = Option.none ∧
        pr.1.fullyQualifiedLogFileName = Option.none ∧
        countWriteFailureWarnings pr.2 = 1 :=
    fun lvl color hg =>
      emitWith_throw_spec env s lvl color m args hm hmn hl hw hg hwgate
  simp only [emitOpsWithLevel, List.mem_cons, List.not_mem_nil,
    or_false] at hp
  rcases hp with rfl | rfl | rfl | rfl | rfl | rfl <;>
    (dsimp only
     dsimp only at hgate
     obtain ⟨pr, h1, h2, h3, h4, h5, h6⟩ := key _ _ hgate
     exact ⟨pr, h1, h2, h3, h4, h5, h6,
       fun t ht => logLocally_skip env t _ m args ht⟩)

/-- Witness for the amended C5 at a concrete logger and failing stream. -/
theorem claim5_sink_failure_selfreport_witness :
    ("boom".length ≠ 0) ∧
    ¬ "boom" = writeFailureFormat ∧
    sampleLogger.logToFileSystem = true ∧
    sampleEnvThrow.writeThrows = true ∧
    checkLogLevel sampleLogger.logLevel .warning = true ∧
    checkLogLevel sampleLogger.logLevel .info = true ∧
    ∃ pr, Logger.log sampleEnvThrow sampleLogger (.str "boom") [] = .ok pr ∧
      pr.1.logToFileSystem = false ∧
      pr.1.lockedFileWriteStream = Option.none ∧
      pr.1.fileName = Option.none ∧
      pr.1.fullyQualifiedLogFileName = Option.none ∧
      countWriteFailureWarnings pr.2 = 1 ∧
      (∀ t : LoggerState, t.logToFileSystem = false →
        logLocally sampleEnvThrow t .info "boom" [] = (t, [])) :=
  ⟨by decide, by decide, by decide, by decide, by decide, by decide,
    claim5_sink_failure_selfreport sampleEnvThrow sampleLogger "boom" []
      (by decide) (by decide) (by decide) (by decide) (by decide)
      (Logger.log, LogLevel.info) (by simp [emitOpsWithLevel]) (by decide)⟩

/-! ## Claim C6 -/

/-- The sink invariant: a logger with `logToFileSystem = false` holds no
open stream and has no file name or fully-qualified file name. -/
def noSinkInv (s : LoggerState) : Prop :=
  s.logToFileSystem = false →
    s.lockedFileWriteStream = Option.none ∧ s.fileName = Option.none ∧
    s.fullyQualifiedLogFileName = Option.none

theorem noSinkInv_of_eqExceptCaches {a b : LoggerState}
    (h : eqExceptCaches a b) (hb : noSinkInv b) : noSinkInv a := by
  obtain ⟨_, _, _, h4, _, _, h7, h8, h9⟩ := h
  intro hf
  rw [h4] at hf
  obtain ⟨k1, k2, k3⟩ := hb hf
  exact ⟨h7.trans k1, h8.trans k2, h9.trans k3⟩

theorem noSinkInv_of_ltfs_true {s : LoggerState}
    (h : s.logToFileSystem = true) : noSinkInv s := by
  intro hf
  rw [h] at hf
  exact absurd hf (by simp)

theorem logLocally_noSinkInv (env : RunEnv) (s : LoggerState)
    (logLevel : LogLevel) (format : String) (args : List String)
    (hinv : noSinkInv s) :
    noSinkInv (logLocally env s logLevel format args).1 := by
  cases hfs : s.logToFileSystem with
  | false =>
    rw [logLocally_skip env s logLevel format args hfs]
    exact hinv
  | true =>
    cases hw : env.writeThrows with
    | true =>
      have hthrow := logLocallyCore_throw env s logLevel format args hfs hw
      obtain ⟨hth1, hth2, hth3, hth4, hth5, _⟩ := hthrow
      have hfailed : (logLocallyCore env s logLevel format args).2.2
          = true := by rw [hth1]
      rw [logLocally_of_failed env s logLevel format args hfailed]
      have hinv2 : noSinkInv (logLocallyCore env s logLevel format
          args).1 := fun _ => ⟨hth3, hth4, hth5⟩
      cases hwg : checkLogLevel
          (logLocallyCore env s logLevel format args).1.logLevel
          .warning with
      | false =>
        rw [warningAfterWriteFailure_gateOff env _ hwg]
        exact hinv2
      | true =>
        rw [warningAfterWriteFailure_spec env _ hwg hth2]
        exact noSinkInv_of_eqExceptCaches
          (logConsole_state env _ .warning logColorBrightYellow
            writeFailureFormat [env.writeErrorMessage]) hinv2
    | false =>
      have hwrite := logLocallyCore_write_eq env s logLevel format args
        hfs hw
      have hnf : (logLocallyCore env s logLevel format args).2.2
          = false := by rw [hwrite]
      rw [logLocally_of_not_failed env s logLevel format args hnf, hwrite]
      refine noSinkInv_of_ltfs_true ?_
      have hc : eqExceptCaches (constructLoggerMessage env
          (if s.lockedFileWriteStream.isNone then
            createFileStream (createFileName env s) else s)
          logLevel format args).2
          (if s.lockedFileWriteStream.isNone then
            createFileStream (createFileName env s) else s) := by
        rw [constructLoggerMessage_snd]
        exact getNonColorLogPrefix_snd env _
      obtain ⟨_, _, _, h4, _, _, _, _, _⟩ := hc
      rw [h4]
      by_cases hstream : s.lockedFileWriteStream.isNone
      · rw [if_pos hstream, (createFileStream_core _).2.1,
          (createFileName_core env s).2.1]
        exact hfs
      · rw [if_neg hstream]
        exact hfs

theorem emitWith_noSinkInv (env : RunEnv) (s : LoggerState)
    (logLevel : LogLevel) (color : String) (message : JsVal)
    (args : List String) (hinv : noSinkInv s) :
    ∀ pr, emitWith env s logLevel color message args = .ok pr →
      noSinkInv pr.1 := by
  intro pr hpr
  cases hv : validateMessage message with
  | error e =>
    unfold emitWith at hpr
    rw [hv] at hpr
    simp at hpr
  | ok m =>
    by_cases hgate : checkLogLevel s.logLevel logLevel = true
    · rw [emitWith_gateOn env s logLevel color message args m hv hgate]
        at hpr
      injection hpr with h
      subst h
      exact logLocally_noSinkInv env _ logLevel m args
        (noSinkInv_of_eqExceptCaches
          (logConsole_state env s logLevel color m args) hinv)
    · have hgate2 : checkLogLevel s.logLevel logLevel = false := by
        simpa using hgate
      rw [emitWith_gateOff env s logLevel color message args m hv hgate2]
        at hpr
      injection hpr with h
      subst h
      exact hinv

theorem updAt_mem {α : Type} (reg : List α) (i : Nat) (f : α → α) :
    ∀ x ∈ updAt reg i f, x ∈ reg ∨ ∃ y ∈ reg, x = f y := by
  induction reg generalizing i with
  | nil => simp [updAt]
  | cons a as ih =>
    cases i with
    | zero =>
      intro x hx
      rcases List.mem_cons.mp hx with h | h
      · exact Or.inr ⟨a, List.mem_cons_self a as, h⟩
      · exact Or.inl (List.mem_cons_of_mem a h)
    | succ n =>
      intro x hx
      rcases List.mem_cons.mp hx with h | h
      · exact Or.inl (h ▸ List.mem_cons_self a as)
      · rcases ih n x h with h2 | ⟨y, hy, hxy⟩
        · exact Or.inl (List.mem_cons_of_mem a h2)
        · exact Or.inr ⟨y, List.mem_cons_of_mem a hy, hxy⟩

theorem construct_ok (tty : TtyState) (reg : List LoggerState)
    (name : String) (logLevel : LogLevel)
    (logToFileSystem logToConsole cutLogPrefix logWithColor : Bool)
    (h0 : name.length ≠ 0) (h1 : nameTest name = true)
    (h2 : (reg.findIdx? (fun l => l.name == name)).isSome = false) :
    Logger.construct tty reg name logLevel logToFileSystem logToConsole
        cutLogPrefix logWithColor
      = .ok (reg ++ [constructedLogger tty name logLevel logToFileSystem
          logToConsole cutLogPrefix logWithColor],
        constructedLogger tty name logLevel logToFileSystem logToConsole
          cutLogPrefix logWithColor) := by
  simp [Logger.construct, h0, h1, h2]

theorem construct_dup (tty : TtyState) (reg : List LoggerState)
    (name : String) (logLevel : LogLevel)
    (logToFileSystem logToConsole cutLogPrefix logWithColor : Bool)
    (h0 : name.length ≠ 0) (h1 : nameTest name = true)
    (h2 : (reg.findIdx? (fun l => l.name == name)).isSome = true) :
    Logger.construct tty reg name logLevel logToFileSystem logToConsole
        cutLogPrefix logWithColor
      = .error (.referenceError (duplicateLoggerName name)) := by
  simp [Logger.construct, h0, h1, h2]

/-- C6: a logger with `logToFileSystem = false` holds no open stream and no
file names, and the invariant is preserved by every operation: the
constructor establishes it; the plain setters, the rename setter and every
leveled emit preserve it; setting `logToFileSystem` to its current value is
a no-op, setting it true-to-false closes the stream and clears the filename
state, and setting it false-to-true creates the filename and the stream. -/
theorem claim6_no_sink_when_disabled (env : RunEnv) :
    (∀ tty reg name lvl fs tc cut col out,
      Logger.construct tty reg name lvl fs tc cut col = .ok out →
        noSinkInv out.2) ∧
    (∀ s v, noSinkInv s → noSinkInv (Logger.setLogLevel s v)) ∧
    (∀ s v, noSinkInv s → noSinkInv (Logger.setLogToConsole s v)) ∧
    (∀ s v, noSinkInv s → noSinkInv (Logger.setLogWithColor s v)) ∧
    (∀ reg i v out, Logger.setName reg i v = .ok out →
      (∀ l ∈ reg, noSinkInv l) → ∀ l ∈ out, noSinkInv l) ∧
    (∀ s : LoggerState,
      Logger.setLogToFileSystem env s s.logToFileSystem = s) ∧
    (∀ s : LoggerState, s.logToFileSystem = true →
      (Logger.setLogToFileSystem env s false).logToFileSystem = false ∧
      (Logger.setLogToFileSystem env s false).lockedFileWriteStream
        = Option.none ∧
      (Logger.setLogToFileSystem env s false).fileName = Option.none ∧
      (Logger.setLogToFileSystem env s false).fullyQualifiedLogFileName
        = Option.none) ∧
    (∀ s : LoggerState, s.logToFileSystem = false →
      (Logger.setLogToFileSystem env s true).logToFileSystem = true ∧
      (Logger.setLogToFileSystem env s true).lockedFileWriteStream
        = some () ∧
      (Logger.setLogToFileSystem env s true).fileName.isSome = true ∧
      (Logger.setLogToFileSystem env s
        true).fullyQualifiedLogFileName.isSome = true) ∧
    (∀ s v, noSinkInv s →
      noSinkInv (Logger.setLogToFileSystem env s v)) ∧
    (∀ p ∈ emitOpsWithLevel, ∀ s msg args pr, noSinkInv s →
      p.1 env s msg args = .ok pr → noSinkInv pr.1) := by
  refine ⟨?_, ?_, ?_, ?_, ?_, ?_, ?_, ?_, ?_, ?_⟩
  · intro tty reg name lvl fs tc cut col out h
    unfold Logger.construct at h
    split at h
    · simp at h
    · split at h
      · simp at h
      · split at h
        · simp at h
        · injection h with h2
          subst h2
          exact fun _ => ⟨rfl, rfl, rfl⟩
  · exact fun s v hinv => hinv
  · exact fun s v hinv => hinv
  · exact fun s v hinv => hinv
  · intro reg i v out h hall l hl
    unfold Logger.setName at h
    split at h
    · simp at h
    · split at h
      · simp at h
      · split at h
        · simp at h
        · injection h with h2
          subst h2
          rcases updAt_mem reg i _ l hl with hmem | ⟨y, hy, hxy⟩
          · exact hall l hmem
          · subst hxy
            exact hall y hy
  · intro s
    simp [Logger.setLogToFileSystem]
  · intro s h
    simp [Logger.setLogToFileSystem, h, closeFileStream]
  · intro s h
    simp [Logger.setLogToFileSystem, h, createFileStream, createFileName]
  · intro s v hinv
    unfold Logger.setLogToFileSystem
    by_cases he : (s.logToFileSystem == v) = true
    · rw [if_pos he]
      exact hinv
    · rw [if_neg (by simpa using he)]
      cases v with
      | true =>
        rw [if_pos rfl]
        refine noSinkInv_of_ltfs_true ?_
        rw [(createFileStream_core _).2.1,
          (createFileName_core env _).2.1]
      | false =>
        rw [if_neg (by simp)]
        exact fun _ => ⟨(closeFileStream_core _).2.2.1,
          (closeFileStream_core _).2.2.2.1,
          (closeFileStream_core _).2.2.2.2⟩
  · intro p hp
    simp only [emitOpsWithLevel, List.mem_cons, List.not_mem_nil,
      or_false] at hp
    rcases hp with rfl | rfl | rfl | rfl | rfl | rfl <;>
      exact fun s msg args pr hinv h =>
        emitWith_noSinkInv env s _ _ msg args hinv pr h

/-- Witness for C6: the no-op conjunct evaluated at a concrete logger. -/
theorem claim6_no_sink_when_disabled_witness :
    Logger.setLogToFileSystem sampleEnv sampleLogger
      sampleLogger.logToFileSystem = sampleLogger :=
  (claim6_no_sink_when_disabled sampleEnv).2.2.2.2.2.1 sampleLogger

/-! ## Claim C7 -/

/-- Counterexample to C7 as stated: constructing with `logToConsole = true`
while no interactive terminal is attached (both `isTTY` flags undefined,
the runtime representation of a non-TTY stream) yields a logger whose
`logToConsole` reads back `true`, not `false` — the constructor's
`=== undefined` branch resets it to `true`.  (`logger.spec.ts` asserts
exactly this behavior.) -/
theorem claim7_counterexample :
    Logger.construct
        { stdoutIsTTY := Option.none, stderrIsTTY := Option.none }
        [] "logger" .info false true false false
      = .ok ([constructedLogger
          { stdoutIsTTY := Option.none, stderrIsTTY := Option.none }
          "logger" .info false true false false],
        constructedLogger
          { stdoutIsTTY := Option.none, stderrIsTTY := Option.none }
          "logger" .info false true false false) ∧
    (constructedLogger
        { stdoutIsTTY := Option.none, stderrIsTTY := Option.none }
        "logger" .info false true false false).logToConsole = true ∧
    ¬ (constructedLogger
        { stdoutIsTTY := Option.none, stderrIsTTY := Option.none }
        "logger" .info false true false false).logToConsole = false := by
  refine ⟨?_, by decide, by decide⟩
  exact construct_ok _ [] "logger" .info false true false false
    (by decide) (by decide) rfl

/-- C7 (amended): constructing with explicit flags and reading every
property back returns exactly the values passed, except `logToConsole`,
which becomes `jsAnd (jsAnd tc stdout.isTTY) stderr.isTTY` with an
`undefined` result reset to `true`: it equals the passed value when both
`isTTY` flags are `true`; it is forced `false` when the passed value is
`false`, or when an `isTTY` flag encountered by the short-circuit is
present-and-`false`; it is reset to `true` when the short-circuit hits an
`undefined` flag. -/
theorem claim7_roundtrip (tty : TtyState) (reg : List LoggerState)
    (name : String) (lvl : LogLevel) (fs tc cut col : Bool)
    (h0 : name.length ≠ 0) (h1 : nameTest name = true)
    (h2 : (reg.findIdx? (fun l => l.name == name)).isSome = false) :
    ∃ out, Logger.construct tty reg name lvl fs tc cut col = .ok out ∧
      out.2.name = name ∧ out.2.logLevel = lvl ∧
      out.2.logToFileSystem = fs ∧ out.2.cutLogPrefix = cut ∧
      out.2.logWithColor = col ∧
      out.2.logToConsole = ttyAdjustedLogToConsole tty tc ∧
      (tty.stdoutIsTTY = some true → tty.stderrIsTTY = some true →
        out.2.logToConsole = tc) ∧
      (tc = false → out.2.logToConsole = false) ∧
      (tc = true → tty.stdoutIsTTY = some false →
        out.2.logToConsole = false) ∧
      (tc = true → tty.stdoutIsTTY = some true →
        tty.stderrIsTTY = some false → out.2.logToConsole = false) ∧
      (tc = true → tty.stdoutIsTTY = Option.none →
        out.2.logToConsole = true) ∧
      (tc = true → tty.stdoutIsTTY = some true →
        tty.stderrIsTTY = Option.none → out.2.logToConsole = true) := by
  refine ⟨_, construct_ok tty reg name lvl fs tc cut col h0 h1 h2,
    rfl, rfl, rfl, rfl, rfl, rfl, ?_, ?_, ?_, ?_, ?_, ?_⟩
  · intro hso hse
    show ttyAdjustedLogToConsole tty tc = tc
    cases tc <;> simp [ttyAdjustedLogToConsole, jsAnd, hso, hse]
  · intro htc
    subst htc
    show ttyAdjustedLogToConsole tty false = false
    simp [ttyAdjustedLogToConsole, jsAnd]
  · intro htc hso
    subst htc
    show ttyAdjustedLogToConsole tty true = false
    simp [ttyAdjustedLogToConsole, jsAnd, hso]
  · intro htc hso hse
    subst htc
    show ttyAdjustedLogToConsole tty true = false
    simp [ttyAdjustedLogToConsole, jsAnd, hso, hse]
  · intro htc hso
    subst htc
    show ttyAdjustedLogToConsole tty true = true
    simp [ttyAdjustedLogToConsole, jsAnd, hso]
  · intro htc hso hse
    subst htc
    show ttyAdjustedLogToConsole tty true = true
    simp [ttyAdjustedLogToConsole, jsAnd, hso, hse]

/-- Witness for the amended C7 at a concrete construction. -/
theorem claim7_roundtrip_witness :
    ("logger".length ≠ 0) ∧
    ∃ out, Logger.construct
        { stdoutIsTTY := some true, stderrIsTTY := some true }
        [] "logger" .debug true false true false = .ok out ∧
      out.2.name = "logger" :=
  ⟨by decide, by
    obtain ⟨out, hc, hn, _⟩ := claim7_roundtrip
      { stdoutIsTTY := some true, stderrIsTTY := some true } []
      "logger" .debug true false true false (by decide) (by decide) rfl
    exact ⟨out, hc, hn⟩⟩

/-! ## Claim C10 -/

/-- C10: assigning a registered logger's `name` its own current value always
raises the duplicate-name `ReferenceError` (so the registry, and the name,
are left unchanged): the setter's uniqueness search runs over the whole
registry and finds the instance being renamed itself. -/
theorem claim10_self_rename (reg : List LoggerState) (i : Nat)
    (l : LoggerState) (hget : reg.get? i = some l)
    (hname : nameTest l.name = true) :
    Logger.setName reg i l.name
      = .error (.referenceError (duplicateLoggerName l.name)) := by
  have hlen : ¬ l.name.length = 0 := by
    unfold nameTest at hname
    simp only [Bool.and_eq_true, decide_eq_true_eq] at hname
    omega
  have hmem : l ∈ reg := List.get?_mem hget
  have hfind : (reg.findIdx? (fun x => x.name == l.name)).isSome = true := by
    rw [List.findIdx?_isSome]
    exact List.any_eq_true.mpr ⟨l, hmem, by simp⟩
  unfold Logger.setName
  rw [if_neg hlen,
    if_neg (show ¬(!nameTest l.name) = true by rw [hname]; simp),
    if_pos hfind]

/-- Witness for C10 at a concrete one-element registry. -/
theorem claim10_self_rename_witness :
    ([sampleLogger].get? 0 = some sampleLogger) ∧
    nameTest sampleLogger.name = true ∧
    Logger.setName [sampleLogger] 0 sampleLogger.name
      = .error (.referenceError (duplicateLoggerName sampleLogger.name)) :=
  ⟨rfl, by decide,
    claim10_self_rename [sampleLogger] 0 sampleLogger rfl (by decide)⟩

/-! ## Claim C9 -/

theorem getNonColorLogPrefix_cached (env : RunEnv) (s : LoggerState)
    (p : String) (h : s.cachedNonColorPrefix = some p) :
    getNonColorLogPrefix env s = (p, s) := by
  unfold getNonColorLogPrefix
  split <;> rw [h]

theorem getColorPrefix_cached (env : RunEnv) (s : LoggerState)
    (p : String) (h : s.cachedColorPrefix = some p) :
    getColorPrefix env s = (p, s) := by
  unfold getColorPrefix
  split <;> rw [h]

theorem getNonColorLogPrefix_compute_short (env : RunEnv) (s : LoggerState)
    (h : s.cachedNonColorPrefix = Option.none) (hc : s.cutLogPrefix = true) :
    getNonColorLogPrefix env s = (shortNonColorLogPrefix env s.name,
      { s with cachedNonColorPrefix
          := some (shortNonColorLogPrefix env s.name) }) := by
  unfold getNonColorLogPrefix
  rw [if_pos hc, h]

theorem getNonColorLogPrefix_compute_long (env : RunEnv) (s : LoggerState)
    (h : s.cachedNonColorPrefix = Option.none)
    (hc : s.cutLogPrefix = false) :
    getNonColorLogPrefix env s = (longNonColorLogPrefix env s.name,
      { s with cachedNonColorPrefix
          := some (longNonColorLogPrefix env s.name) }) := by
  unfold getNonColorLogPrefix
  rw [if_neg (by simp [hc]), h]

theorem getColorPrefix_compute_short (env : RunEnv) (s : LoggerState)
    (h : s.cachedColorPrefix = Option.none) (hc : s.cutLogPrefix = true) :
    getColorPrefix env s = (shortColorLogPrefix env s.name,
      { s with cachedColorPrefix
          := some (shortColorLogPrefix env s.name) }) := by
  unfold getColorPrefix
  rw [if_pos hc, h]

theorem getColorPrefix_compute_long (env : RunEnv) (s : LoggerState)
    (h : s.cachedColorPrefix = Option.none) (hc : s.cutLogPrefix = false) :
    getColorPrefix env s = (longColorLogPrefix env s.name,
      { s with cachedColorPrefix
          := some (longColorLogPrefix env s.name) }) := by
  unfold getColorPrefix
  rw [if_neg (by simp [hc]), h]

theorem updAt_get? {α : Type} (reg : List α) (i : Nat) (f : α → α)
    (j : Nat) :
    (updAt reg i f).get? j
      = if j = i then (reg.get? i).map f else reg.get? j := by
  induction reg generalizing i j with
  | nil => simp [updAt]
  | cons a as ih =>
    cases i with
    | zero =>
      cases j with
      | zero => simp [updAt]
      | succ n => simp [updAt]
    | succ n =>
      cases j with
      | zero => simp [updAt]
      | succ k =>
        simp only [updAt, List.get?_cons_succ, ih]
        by_cases hk : k = n
        · simp [hk]
        · simp [hk, Nat.succ_ne_succ]

/-- C9: each prefix family (colored, non-colored) is computed at most once —
a cached prefix is returned as-is, a missing one is computed from the
current name and cached — renaming through the setter never invalidates
either cache of any registry entry, and a line formatted after a rename
still carries the prefix built from the old name. -/
theorem claim9_prefix_cache (env : RunEnv) :
    (∀ s p, s.cachedNonColorPrefix = some p →
      getNonColorLogPrefix env s = (p, s)) ∧
    (∀ s p, s.cachedColorPrefix = some p →
      getColorPrefix env s = (p, s)) ∧
    (∀ s : LoggerState, s.cachedNonColorPrefix = Option.none →
      s.cutLogPrefix = true →
      getNonColorLogPrefix env s = (shortNonColorLogPrefix env s.name,
        { s with cachedNonColorPrefix
            := some (shortNonColorLogPrefix env s.name) })) ∧
    (∀ s : LoggerState, s.cachedNonColorPrefix = Option.none →
      s.cutLogPrefix = false →
      getNonColorLogPrefix env s = (longNonColorLogPrefix env s.name,
        { s with cachedNonColorPrefix
            := some (longNonColorLogPrefix env s.name) })) ∧
    (∀ s : LoggerState, s.cachedColorPrefix = Option.none →
      s.cutLogPrefix = true →
      getColorPrefix env s = (shortColorLogPrefix env s.name,
        { s with cachedColorPrefix
            := some (shortColorLogPrefix env s.name) })) ∧
    (∀ s : LoggerState, s.cachedColorPrefix = Option.none →
      s.cutLogPrefix = false →
      getColorPrefix env s = (longColorLogPrefix env s.name,
        { s with cachedColorPrefix
            := some (longColorLogPrefix env s.name) })) ∧
    (∀ reg i v out, Logger.setName reg i v = .ok out → ∀ j,
      (out.get? j).map
          (fun l => (l.cachedNonColorPrefix, l.cachedColorPrefix))
        = (reg.get? j).map
          (fun l => (l.cachedNonColorPrefix, l.cachedColorPrefix))) ∧
    (∀ (s : LoggerState) (v : String) (lvl : LogLevel) (fmt : String)
        (args : List String),
      s.cachedNonColorPrefix = Option.none → s.cutLogPrefix = true →
      (constructLoggerMessage env
          { (getNonColorLogPrefix env s).2 with name := v } lvl fmt args).1
        = "[" ++ env.nowIso ++ "]" ++ shortNonColorLogPrefix env s.name
            ++ "[" ++ levelTag lvl ++ "] "
            ++ resolvedBody env lvl fmt args ++ "\n") := by
  refine ⟨getNonColorLogPrefix_cached env, getColorPrefix_cached env,
    getNonColorLogPrefix_compute_short env,
    getNonColorLogPrefix_compute_long env,
    getColorPrefix_compute_short env, getColorPrefix_compute_long env,
    ?_, ?_⟩
  · intro reg i v out h j
    unfold Logger.setName at h
    split at h
    · simp at h
    · split at h
      · simp at h
      · split at h
        · simp at h
        · injection h with h2
          subst h2
          rw [updAt_get?]
          by_cases hj : j = i
          · subst hj
            rw [if_pos rfl]
            cases hg : reg.get? j <;> simp
          · rw [if_neg hj]
  · intro s v lvl fmt args hnone hcut
    rw [getNonColorLogPrefix_compute_short env s hnone hcut]
    simp only [constructLoggerMessage]
    rw [getNonColorLogPrefix_cached env _
      (shortNonColorLogPrefix env s.name) rfl]
    rw [if_pos hcut]

/-- Witness for C9: a concrete cached prefix survives a lookup untouched. -/
theorem claim9_prefix_cache_witness :
    ({ sampleLogger with cachedNonColorPrefix := some "[cached]" }
        : LoggerState).cachedNonColorPrefix = some "[cached]" ∧
    getNonColorLogPrefix sampleEnv
        { sampleLogger with cachedNonColorPrefix := some "[cached]" }
      = ("[cached]",
        { sampleLogger with cachedNonColorPrefix := some "[cached]" }) :=
  ⟨rfl, (claim9_prefix_cache sampleEnv).1
    { sampleLogger with cachedNonColorPrefix := some "[cached]" }
    "[cached]" rfl⟩

/-! ## Claim C8 -/

theorem logLocally_core_fields (env : RunEnv) (s : LoggerState)
    (logLevel : LogLevel) (format : String) (args : List String) :
    eqCore (logLocally env s logLevel format args).1 s := by
  cases hfs : s.logToFileSystem with
  | false =>
    rw [logLocally_skip env s logLevel format args hfs]
    exact eqCore_refl s
  | true =>
    cases hw : env.writeThrows with
    | true =>
      have hthrow := logLocallyCore_throw env s logLevel format args hfs hw
      obtain ⟨hth1, hth2, _, _, _, hthcore⟩ := hthrow
      have hfailed : (logLocallyCore env s logLevel format args).2.2
          = true := by rw [hth1]
      rw [logLocally_of_failed env s logLevel format args hfailed]
      cases hwg : checkLogLevel
          (logLocallyCore env s logLevel format args).1.logLevel
          .warning with
      | false =>
        rw [warningAfterWriteFailure_gateOff env _ hwg]
        exact hthcore
      | true =>
        rw [warningAfterWriteFailure_spec env _ hwg hth2]
        exact eqCore_trans (eqExceptCaches_core
          (logConsole_state env _ .warning logColorBrightYellow
            writeFailureFormat [env.writeErrorMessage])) hthcore
    | false =>
      have hwrite := logLocallyCore_write_eq env s logLevel format args
        hfs hw
      have hnf : (logLocallyCore env s logLevel format args).2.2
          = false := by rw [hwrite]
      rw [logLocally_of_not_failed env s logLevel format args hnf, hwrite]
      have hc : eqCore (constructLoggerMessage env
          (if s.lockedFileWriteStream.isNone then
            createFileStream (createFileName env s) else s)
          logLevel format args).2
          (if s.lockedFileWriteStream.isNone then
            createFileStream (createFileName env s) else s) := by
        rw [constructLoggerMessage_snd]
        exact eqExceptCaches_core (getNonColorLogPrefix_snd env _)
      refine eqCore_trans hc ?_
      by_cases hstream : s.lockedFileWriteStream.isNone
      · rw [if_pos hstream]
        exact eqCore_trans (createFileStream_core _).1
          (createFileName_core env s).1
      · rw [if_neg hstream]
        exact eqCore_refl s

theorem emitWith_core (env : RunEnv) (s : LoggerState)
    (logLevel : LogLevel) (color : String) (message : JsVal)
    (args : List String) :
    ∀ pr, emitWith env s logLevel color message args = .ok pr →
      eqCore pr.1 s := by
  intro pr hpr
  cases hv : validateMessage message with
  | error e =>
    unfold emitWith at hpr
    rw [hv] at hpr
    simp at hpr
  | ok m =>
    by_cases hgate : checkLogLevel s.logLevel logLevel = true
    · rw [emitWith_gateOn env s logLevel color message args m hv hgate]
        at hpr
      injection hpr with h
      subst h
      exact eqCore_trans (logLocally_core_fields env _ logLevel m args)
        (eqExceptCaches_core (logConsole_state env s logLevel color m args))
    · have hgate2 : checkLogLevel s.logLevel logLevel = false := by
        simpa using hgate
      rw [emitWith_gateOff env s logLevel color message args m hv hgate2]
        at hpr
      injection hpr with h
      subst h
      exact eqCore_refl s

theorem applyEmitOk_core (env : RunEnv) (s : LoggerState)
    (logLevel : LogLevel) (color : String) (message : JsVal)
    (args : List String) :
    eqCore (applyEmitOk env s logLevel color message args) s := by
  unfold applyEmitOk
  cases h : emitWith env s logLevel color message args with
  | ok pr => exact emitWith_core env s logLevel color message args pr h
  | error e => exact eqCore_refl s

theorem updateFirstNamed_map_name (reg : List LoggerState) (nm : String)
    (f : LoggerState → LoggerState) (hf : ∀ s, (f s).name = s.name) :
    (updateFirstNamed reg nm f).map LoggerState.name
      = reg.map LoggerState.name := by
  induction reg with
  | nil => rfl
  | cons a as ih =>
    unfold updateFirstNamed
    by_cases h : (a.name == nm) = true
    · rw [if_pos h]
      simp [hf a]
    · rw [if_neg h]
      simp [ih]

theorem foldl_removeAll (snapshot reg : List LoggerState) :
    snapshot.foldl (fun acc l => acc.filter (fun o => o.name != l.name)) reg
      = reg.filter
          (fun o => !snapshot.any (fun l => l.name == o.name)) := by
  induction snapshot generalizing reg with
  | nil => simp
  | cons a as ih =>
    rw [List.foldl_cons, ih, List.filter_filter]
    apply List.filter_congr
    intro o _
    by_cases h : o.name = a.name
    · simp [h]
    · simp only [List.any_cons, Bool.not_or, bne]
      rw [Bool.beq_comm (a := a.name)]
      rw [Bool.and_comm]

theorem removeAll_characterization (reg1 : List LoggerState)
    (sName nName : String) :
    (reg1.filter (fun l => l.name != sName && l.name != nName)).foldl
        (fun acc l => acc.filter (fun o => o.name != l.name)) reg1
      = reg1.filter (fun o => o.name == sName || o.name == nName) := by
  rw [foldl_removeAll]
  apply List.filter_congr
  intro o ho
  by_cases h1 : o.name = sName
  · have hany : (reg1.filter
        (fun l => l.name != sName && l.name != nName)).any
        (fun l => l.name == o.name) = false := by
      rw [← Bool.not_eq_true, List.any_eq_true]
      rintro ⟨l, hl, heq⟩
      have hl2 := (List.mem_filter.mp hl).2
      simp only [Bool.and_eq_true, bne_iff_ne] at hl2
      rw [beq_iff_eq] at heq
      exact hl2.1 (heq.trans h1)
    rw [hany]
    simp [h1]
  · by_cases h2 : o.name = nName
    · have hany : (reg1.filter
          (fun l => l.name != sName && l.name != nName)).any
          (fun l => l.name == o.name) = false := by
        rw [← Bool.not_eq_true, List.any_eq_true]
        rintro ⟨l, hl, heq⟩
        have hl2 := (List.mem_filter.mp hl).2
        simp only [Bool.and_eq_true, bne_iff_ne] at hl2
        rw [beq_iff_eq] at heq
        exact hl2.2 (heq.trans h2)
      rw [hany]
      simp [h2]
    · have ho2 : o ∈ reg1.filter
          (fun l => l.name != sName && l.name != nName) :=
        List.mem_filter.mpr ⟨ho, by simp [h1, h2]⟩
      have hany : (reg1.filter
          (fun l => l.name != sName && l.name != nName)).any
          (fun l => l.name == o.name) = true :=
        List.any_eq_true.mpr ⟨o, ho2, by simp⟩
      rw [hany]
      simp [h1, h2]

/-- C8: with both singletons registered, `tryClearAllLoggers` keeps exactly
the entries named like the default singleton or the noop singleton (both
remain registered), removes every other entry, and every removed instance
comes back with its stream closed and its filename state cleared.  The
operation is a total function of the registry — the surrounding `catch`
that would report through the default singleton is unreachable, so nothing
is ever raised to the caller. -/
theorem claim8_clear_all (env : RunEnv) (reg : List LoggerState)
    (sName nName : String)
    (hs : sName ∈ reg.map LoggerState.name)
    (hn : nName ∈ reg.map LoggerState.name) :
    (Logger.tryClearAllLoggers env reg sName nName).1.map LoggerState.name
      = (reg.map LoggerState.name).filter
          (fun m => m == sName || m == nName) ∧
    sName ∈ (Logger.tryClearAllLoggers env reg sName
      nName).1.map LoggerState.name ∧
    nName ∈ (Logger.tryClearAllLoggers env reg sName
      nName).1.map LoggerState.name ∧
    ∀ r ∈ (Logger.tryClearAllLoggers env reg sName nName).2,
      r.lockedFileWriteStream = Option.none ∧ r.fileName = Option.none ∧
      r.fullyQualifiedLogFileName = Option.none := by
  have hmap1 : (updateFirstNamed reg sName
      (fun st => applyEmitOk env st .info logColorBrightWhite
        (.str "Try clear all loggers...") [])).map LoggerState.name
      = reg.map LoggerState.name :=
    updateFirstNamed_map_name reg sName _
      (fun s => (applyEmitOk_core env s .info logColorBrightWhite
        (.str "Try clear all loggers...") []).1)
  have hfst : (Logger.tryClearAllLoggers env reg sName nName).1
      = (updateFirstNamed reg sName
          (fun st => applyEmitOk env st .info logColorBrightWhite
            (.str "Try clear all loggers...") [])).filter
          (fun o => o.name == sName || o.name == nName) := by
    simp only [Logger.tryClearAllLoggers]
    exact removeAll_characterization _ _ _
  have hsnd : (Logger.tryClearAllLoggers env reg sName nName).2
      = ((updateFirstNamed reg sName
          (fun st => applyEmitOk env st .info logColorBrightWhite
            (.str "Try clear all loggers...") [])).filter
          (fun l => l.name != sName && l.name != nName)).map
          closeFileStream := by
    simp only [Logger.tryClearAllLoggers]
  have hcomp : (fun o : LoggerState => o.name == sName || o.name == nName)
      = ((fun m => m == sName || m == nName) ∘ LoggerState.name) := rfl
  have hmapfil : (Logger.tryClearAllLoggers env reg sName
      nName).1.map LoggerState.name
      = (reg.map LoggerState.name).filter
          (fun m => m == sName || m == nName) := by
    rw [hfst, hcomp, ← List.filter_map, hmap1]
  refine ⟨hmapfil, ?_, ?_, ?_⟩
  · rw [hmapfil]
    exact List.mem_filter.mpr ⟨hs, by simp⟩
  · rw [hmapfil]
    exact List.mem_filter.mpr ⟨hn, by simp⟩
  · rw [hsnd]
    intro r hr
    obtain ⟨l, _, rfl⟩ := List.mem_map.mp hr
    exact ⟨(closeFileStream_core l).2.2.1,
      (closeFileStream_core l).2.2.2.1, (closeFileStream_core l).2.2.2.2⟩

/-- Witness for C8 at a concrete three-logger registry. -/
theorem claim8_clear_all_witness :
    ("sing" ∈ ([{ sampleLogger with name := "sing" },
        { sampleLogger with name := "noop" },
        sampleLogger] : List LoggerState).map LoggerState.name) ∧
    ("noop" ∈ ([{ sampleLogger with name := "sing" },
        { sampleLogger with name := "noop" },
        sampleLogger] : List LoggerState).map LoggerState.name) ∧
    (Logger.tryClearAllLoggers sampleEnv
        [{ sampleLogger with name := "sing" },
         { sampleLogger with name := "noop" },
         sampleLogger] "sing" "noop").1.map LoggerState.name
      = (([{ sampleLogger with name := "sing" },
          { sampleLogger with name := "noop" },
          sampleLogger] : List LoggerState).map LoggerState.name).filter
          (fun m => m == "sing" || m == "noop") :=
  ⟨by simp, by simp,
    (claim8_clear_all sampleEnv
      [{ sampleLogger with name := "sing" },
       { sampleLogger with name := "noop" },
       sampleLogger] "sing" "noop" (by simp) (by simp)).1⟩

/-! ## Claim C2 -/

theorem nameTest_length_ne_zero {v : String} (h : nameTest v = true) :
    ¬ v.length = 0 := by
  unfold nameTest at h
  simp only [Bool.and_eq_true, decide_eq_true_eq] at h
  omega

theorem findIdx_name_isSome (reg : List LoggerState) (v : String)
    (h : v ∈ reg.map LoggerState.name) :
    (reg.findIdx? (fun l => l.name == v)).isSome = true := by
  rw [List.findIdx?_isSome]
  obtain ⟨l, hl, rfl⟩ := List.mem_map.mp h
  exact List.any_eq_true.mpr ⟨l, hl, by simp⟩

theorem findIdx_name_isNone (reg : List LoggerState) (v : String)
    (h : v ∉ reg.map LoggerState.name) :
    (reg.findIdx? (fun l => l.name == v)).isSome = false := by
  rw [← Bool.not_eq_true, List.findIdx?_isSome, List.any_eq_true]
  rintro ⟨l, hl, heq⟩
  rw [beq_iff_eq] at heq
  exact h (List.mem_map.mpr ⟨l, hl, heq⟩)

theorem tryClearAll_names (env : RunEnv) (reg : List LoggerState)
    (sName nName : String) :
    (Logger.tryClearAllLoggers env reg sName nName).1.map LoggerState.name
      = (reg.map LoggerState.name).filter
          (fun m => m == sName || m == nName) := by
  have hmap1 : (updateFirstNamed reg sName
      (fun st => applyEmitOk env st .info logColorBrightWhite
        (.str "Try clear all loggers...") [])).map LoggerState.name
      = reg.map LoggerState.name :=
    updateFirstNamed_map_name reg sName _
      (fun s => (applyEmitOk_core env s .info logColorBrightWhite
        (.str "Try clear all loggers...") []).1)
  have hfst : (Logger.tryClearAllLoggers env reg sName nName).1
      = (updateFirstNamed reg sName
          (fun st => applyEmitOk env st .info logColorBrightWhite
            (.str "Try clear all loggers...") [])).filter
          (fun o => o.name == sName || o.name == nName) := by
    simp only [Logger.tryClearAllLoggers]
    exact removeAll_characterization _ _ _
  have hcomp : (fun o : LoggerState => o.name == sName || o.name == nName)
      = ((fun m => m == sName || m == nName) ∘ LoggerState.name) := rfl
  rw [hfst, hcomp, ← List.filter_map, hmap1]

/-- C2: no two live registry entries share a name — constructing a logger
whose (valid) name is already registered raises the duplicate-name
`ReferenceError`; a successful construction preserves name uniqueness of
the registry; and once the bulk clear-all operation has removed the logger
carrying that name (a non-singleton name), constructing with the same name
succeeds again. -/
theorem claim2_name_uniqueness (tty : TtyState) (env : RunEnv) :
    (∀ (reg : List LoggerState) (v : String) (lvl : LogLevel)
        (fs tc cut col : Bool), nameTest v = true →
      v ∈ reg.map LoggerState.name →
      Logger.construct tty reg v lvl fs tc cut col
        = .error (.referenceError (duplicateLoggerName v))) ∧
    (∀ (reg : List LoggerState) (v : String) (lvl : LogLevel)
        (fs tc cut col : Bool) out,
      (reg.map LoggerState.name).Nodup →
      Logger.construct tty reg v lvl fs tc cut col = .ok out →
      (out.1.map LoggerState.name).Nodup) ∧
    (∀ (reg : List LoggerState) (v sName nName : String) (lvl : LogLevel)
        (fs tc cut col : Bool),
      nameTest v = true → v ∈ reg.map LoggerState.name →
      v ≠ sName → v ≠ nName →
      Logger.construct tty (Logger.tryClearAllLoggers env reg
          sName nName).1 v lvl fs tc cut col
        = .ok ((Logger.tryClearAllLoggers env reg sName nName).1 ++
            [constructedLogger tty v lvl fs tc cut col],
          constructedLogger tty v lvl fs tc cut col)) := by
  refine ⟨?_, ?_, ?_⟩
  · intro reg v lvl fs tc cut col hv hmem
    exact construct_dup tty reg v lvl fs tc cut col
      (nameTest_length_ne_zero hv) hv (findIdx_name_isSome reg v hmem)
  · intro reg v lvl fs tc cut col out hnd h
    unfold Logger.construct at h
    split at h
    · simp at h
    · split at h
      · simp at h
      · split at h
        · simp at h
        · injection h with h2
          subst h2
          rename_i hdup
          have hnotmem : v ∉ reg.map LoggerState.name := by
            intro hmem
            exact hdup (findIdx_name_isSome reg v hmem)
          rw [List.map_append]
          rw [List.nodup_append]
          refine ⟨hnd, by simp, ?_⟩
          intro a ha hb
          simp only [List.map_cons, List.map_nil, List.mem_singleton]
            at hb
          rw [hb] at ha
          exact hnotmem ha
  · intro reg v sName nName lvl fs tc cut col hv hmem hvs hvn
    have hnotmem : v ∉ (Logger.tryClearAllLoggers env reg
        sName nName).1.map LoggerState.name := by
      rw [tryClearAll_names]
      intro hmem2
      have hpred := (List.mem_filter.mp hmem2).2
      simp only [Bool.or_eq_true, beq_iff_eq] at hpred
      rcases hpred with h | h
      · exact hvs h
      · exact hvn h
    exact construct_ok tty _ v lvl fs tc cut col
      (nameTest_length_ne_zero hv) hv
      (findIdx_name_isNone _ v hnotmem)

/-- Witness for C2: a concrete duplicate construction is rejected. -/
theorem claim2_name_uniqueness_witness :
    nameTest "logger" = true ∧
    ("logger" ∈ ([sampleLogger] : List LoggerState).map LoggerState.name) ∧
    Logger.construct { stdoutIsTTY := some true, stderrIsTTY := some true }
        [sampleLogger] "logger" .info true true true true
      = .error (.referenceError (duplicateLoggerName "logger")) :=
  ⟨by decide, by simp [sampleLogger],
    (claim2_name_uniqueness
      { stdoutIsTTY := some true, stderrIsTTY := some true } sampleEnv).1
      [sampleLogger] "logger" .info true true true true (by decide)
      (by simp [sampleLogger])⟩
